import Mathlib

/-!
# Hercules Plugin Manager (`src/common/HPM.c`)

A shallow embedding of the plugin manager: the packet hook table, the extension
data slots (HPData), the symbol registry, the version check, the ABI DataCheck
registry, the plugin registry with its load, unload and event broadcast, the
function hook registry, the config listener registry, the command-line
extension and the configuration-driven load, with the properties of its
specification.

Conventions of the embedding:

* C pointers to functions and payloads are natural numbers (their address);
  `NULL` is `0`.
* A call into plugin code (`packet->receive(fd)`) is foreign code: the
  embedding records the call in a log and does not interpret it.
* `ShowError` and the other console output functions only print; they are
  left out.
* `unsigned short`, `uint16` and `int16` values are carried as `Nat`/`Int`
  with the conversions written out (`toInt16`, `toInt32`).  Item counts
  (`unsigned int`) stay far below `2 ^ 32` and are plain `Nat`.
* An operation whose C execution would read through a `NULL` pointer or
  outside an array has no defined result: it returns `none`.
* C strings are `String`s, `strcmp` is their equality; a `char *` that can be
  `NULL` is an `Option String`.
* Where the code counts bytes into a buffer (`snprintf`), a string stands for
  the bytes of its UTF-8 encoding.
* `exit(EXIT_FAILURE)` ends a call with the result `LoadResult.exit`.
-/

namespace HPM

/-! ## Machine integers -/

/-- Value of an integer after conversion to `int16` (two's complement). -/
def toInt16 (n : Nat) : Int :=
  if n % 65536 < 32768 then ((n % 65536 : Nat) : Int) else ((n % 65536 : Nat) : Int) - 65536

/-- Value of a `size_t` after the cast `(int)` (32-bit two's complement). -/
def toInt32 (n : Nat) : Int :=
  if n % 4294967296 < 2147483648 then ((n % 4294967296 : Nat) : Int)
  else ((n % 4294967296 : Nat) : Int) - 4294967296

/-- Modelled from the spec: the macro `ARR_FIND(start, end, var, cmp)` of
`common/cbasetypes.h`, which is not under `src/`.  It is the linear lookup
`for (var = start; var < end; ++var) if (cmp) break;` run from `0` over a whole
vector: the result is the index of the first element that satisfies `cmp`, and
the length of the vector when there is none. -/
def ARR_FIND {α : Type} (cmp : α → Bool) : List α → Nat
  | [] => 0
  | x :: xs => if cmp x then 0 else ARR_FIND cmp xs + 1

/-! ## Packet hook table -/

/-- One packet registration (`struct HPluginPacket`).  `len` keeps the 16 bits
that `hplugins_addpacket` stores (`0xFFFF`, that is `-1`, is the
variable-length sentinel); `receive` is the address of the handler. -/
structure HPluginPacket where
  pluginID : Nat
  cmd : Nat
  len : Nat
  receive : Nat
deriving DecidableEq, Repr

/-- Modelled from the spec: the read side of `struct socket_data` of
`common/socket.h`, which is not under `src/`: the bytes of the read buffer
(`rdata`, by index), the number of buffered bytes (`rdata_size`) and the read
cursor (`rdata_pos`). -/
structure socket_data where
  rdata : Nat → Nat
  rdata_size : Nat
  rdata_pos : Nat

/-- The part of the process state that packet registration and dispatch use:
the packet vectors `HPM->packets[point]`, the sessions `sockt->session[fd]`
(`none` where there is no session) and the log of the handler calls made so
far, each with the handler address and the `fd` it was called on. -/
structure PacketState where
  packets : Nat → List HPluginPacket
  session : Int → Option socket_data
  received : List (Nat × Int)

/-- Modelled from the spec: the macro `RFIFOW(fd, pos)` of `common/socket.h`,
which is not under `src/`: the 16-bit word (`uint16`, low byte first) found
`pos` bytes after the read cursor, the "buffer head". -/
def RFIFOW (s : socket_data) (pos : Nat) : Nat :=
  s.rdata (s.rdata_pos + pos) % 256 + 256 * (s.rdata (s.rdata_pos + pos + 1) % 256)

/-- Modelled from the spec: the macro `RFIFOREST(fd)` of `common/socket.h`,
which is not under `src/`: the number of buffered bytes that are not read
yet. -/
def RFIFOREST (s : socket_data) : Nat :=
  s.rdata_size - s.rdata_pos

/-- Modelled from the spec: `RFIFOSKIP(fd, len)` of `common/socket.h`, which
is not under `src/`: it advances the read cursor of the session by `len`.
`len` is the signed value the caller passes. -/
def RFIFOSKIP (st : PacketState) (fd : Int) (len : Int) : PacketState :=
  match st.session fd with
  | none => st
  | some s =>
    let s1 : socket_data := { s with rdata_pos := Int.toNat ((s.rdata_pos : Int) + len) }
    { st with
      session := fun k => if k = fd then some s1 else st.session k }

/-- Registration of a packet handler (`hplugins_addpacket`); `hpPHP_MAX` is the
number of hook points, an enum bound of `HPM.h` that is not under `src/`.
`cmd` and `length` are the `unsigned short` values the function receives.  The
result is the returned flag and the state after the call. -/
def hplugins_addpacket (hpPHP_MAX : Nat) (st : PacketState)
    (cmd length receive point pluginID : Nat) : Bool × PacketState :=
  if point ≥ hpPHP_MAX then
    (false, st)
  else if (st.packets point).any (fun p => p.cmd == cmd) then
    (false, st)
  else
    let packet : HPluginPacket :=
      { pluginID := pluginID, cmd := cmd, len := length, receive := receive }
    (true,
      { st with
        packets := fun k => if k = point then st.packets point ++ [packet] else st.packets k })

/-- Dispatch of the packet at the head of the read buffer of `fd`
(`hplugins_parse_packets`).  The result is the returned code (`0` unknown
packet, `1` OK, `2` incomplete packet) and the state after the call; there is
no result when `fd` has no session.  The local `length` is an `int16`: the
stored length and the word read at offset 2 are converted to it, and it is
compared with `(int)RFIFOREST(fd)`. -/
def hplugins_parse_packets (st : PacketState) (fd : Int) (point : Nat) :
    Option (Nat × PacketState) :=
  match st.session fd with
  | none => none
  | some s =>
    let i := ARR_FIND (fun p => p.cmd == RFIFOW s 0) (st.packets point)
    if i = (st.packets point).length then
      some (0, st)
    else
      match (st.packets point)[i]? with
      | none => none
      | some packet =>
        let length : Int := toInt16 packet.len
        let length : Int := if length = -1 then toInt16 (RFIFOW s 2) else length
        if length > toInt32 (RFIFOREST s) then
          some (2, st)
        else
          some (1, RFIFOSKIP { st with received := st.received ++ [(packet.receive, fd)] }
            fd length)

/-! ## Extension data slots (HPData) -/

/-- The null pointer. -/
def NULL : Nat := 0

/-- One extension data item (`struct HPluginData`): owning plugin, type tag,
the auto-free flag (`flag.free`) and the address of the payload. -/
structure HPluginData where
  pluginID : Nat
  type : Nat
  free : Bool
  data : Nat
deriving DecidableEq, Repr

/-- Modelled from the spec: `enum HPluginDataTypes` of `HPM.h`, which is not
under `src/`: the core-handled session kind, and the kinds of the host, each
kept by its number. -/
inductive HPluginDataTypes where
  | HPDT_SESSION : HPluginDataTypes
  | HPDT_HOST (kind : Nat) : HPluginDataTypes
deriving DecidableEq, Repr

/-- What an accessor resolves (`struct HPDataOperationStorage`): the address of
the array-pointer field and the address of the count field of a host object;
`none` is `NULL`. -/
structure HPDataOperationStorage where
  HPDataSRCPtr : Option Nat
  hdatac : Option Nat
deriving DecidableEq, Repr

/-- The part of the process state that the extension data operations use: the
delegate `HPM->grabHPDataSub` (`none` when none is installed; it answers `none`
for `false`, and the record it filled for `true`), the memory of the host
objects, and the log of the payloads released with `aFree`.  A field of a host
object is named by its address: `HPDataSRC a` is the item array reached through
the array-pointer field at `a`, one entry per allocated cell (`none` is a
`NULL` item pointer, `[]` a `NULL` array), and `hdatac c` is the count stored
at `c`. -/
structure HPDataState where
  grabHPDataSub : Option (HPluginDataTypes → Nat → Option HPDataOperationStorage)
  HPDataSRC : Nat → List (Option HPluginData)
  hdatac : Nat → Nat
  freed : List Nat

/-- Modelled from the spec: the macro `RECREATE(ptr, type, count)` of
`common/malloc.h`, which is not under `src/`: the array is reallocated to
`count` cells, the cells it already had keep their content in place ("growth
must preserve existing item identities") and a new cell is not initialised
(kept as `NULL` here). -/
def RECREATE (arr : List (Option HPluginData)) (count : Nat) : List (Option HPluginData) :=
  arr.take count ++ List.replicate (count - arr.length) none

/-- Resolution of the two field addresses of a host object
(`hplugins_grabHPData`).  The fields of the session at `ptr` are named by
`ptr`. -/
def hplugins_grabHPData (st : HPDataState) (type : HPluginDataTypes) (ptr : Nat) :
    HPDataOperationStorage :=
  match type with
  | HPluginDataTypes.HPDT_SESSION => { HPDataSRCPtr := some ptr, hdatac := some ptr }
  | _ =>
    match st.grabHPDataSub with
    | some sub =>
      match sub type ptr with
      | some ret => ret
      | none => { HPDataSRCPtr := none, hdatac := none }
    | none => { HPDataSRCPtr := none, hdatac := none }

/-- The test `HPDataSRC[i]->pluginID == pluginID && HPDataSRC[i]->type == index`. -/
def HPData_match (pluginID index : Nat) (d : HPluginData) : Bool :=
  d.pluginID == pluginID && d.type == index

/-- The scan of the three operations,
`for (i = 0; i < max; i++) if (HPDataSRC[i]->pluginID == pluginID && HPDataSRC[i]->type == index) break;`
from index `i` with `n` cells left before `max`: the index of the first item
that matches, or `max`.  There is no result when a cell below `max` is missing
or `NULL`. -/
def HPData_scan (HPDataSRC : List (Option HPluginData)) (pluginID index : Nat) :
    Nat → Nat → Option Nat
  | 0, i => some i
  | n + 1, i =>
    match HPDataSRC[i]? with
    | some (some d) =>
      if HPData_match pluginID index d then some i
      else HPData_scan HPDataSRC pluginID index n (i + 1)
    | _ => none

/-- The compaction loop of `hplugins_removeFromHPData`,
`for (i = 0, cursor = 0; i < max; i++) { if (HPDataSRC[i] == NULL) continue;
if (i != cursor) HPDataSRC[cursor] = HPDataSRC[i]; cursor++; }`
from index `i` with `n` cells left before `max`: the array and the cursor at
the end of the loop. -/
def HPData_compact : Nat → Nat → Nat → List (Option HPluginData) →
    Option (List (Option HPluginData) × Nat)
  | 0, _, cursor, HPDataSRC => some (HPDataSRC, cursor)
  | n + 1, i, cursor, HPDataSRC =>
    match HPDataSRC[i]? with
    | none => none
    | some none => HPData_compact n (i + 1) cursor HPDataSRC
    | some (some d) =>
      HPData_compact n (i + 1) (cursor + 1)
        (if i ≠ cursor then HPDataSRC.set cursor (some d) else HPDataSRC)

/-- Attach of a payload to a host object (`hplugins_addToHPData`). -/
def hplugins_addToHPData (st : HPDataState) (type : HPluginDataTypes)
    (pluginID ptr data index : Nat) (autofree : Bool) : Option HPDataState :=
  let action := hplugins_grabHPData st type ptr
  match action.hdatac with
  | none => some st
  | some c =>
    match action.HPDataSRCPtr with
    | none => none
    | some a =>
      let HPDataSRC := st.HPDataSRC a
      let max := st.hdatac c
      match HPData_scan HPDataSRC pluginID index max 0 with
      | none => none
      | some i =>
        if i ≠ max then some st
        else
          let HPData : HPluginData :=
            { pluginID := pluginID, type := index, free := autofree, data := data }
          let hdatac1 := max + 1
          let HPDataSRC1 := (RECREATE HPDataSRC hdatac1).set (hdatac1 - 1) (some HPData)
          some { st with
            HPDataSRC := fun k => if k = a then HPDataSRC1 else st.HPDataSRC k
            hdatac := fun k => if k = c then hdatac1 else st.hdatac k }

/-- Lookup of a payload (`hplugins_getFromHPData`): the address of the payload,
or `NULL`. -/
def hplugins_getFromHPData (st : HPDataState) (type : HPluginDataTypes)
    (pluginID ptr index : Nat) : Option Nat :=
  let action := hplugins_grabHPData st type ptr
  match action.hdatac with
  | none => some NULL
  | some c =>
    match action.HPDataSRCPtr with
    | none => none
    | some a =>
      let HPDataSRC := st.HPDataSRC a
      let max := st.hdatac c
      match HPData_scan HPDataSRC pluginID index max 0 with
      | none => none
      | some i =>
        if i ≠ max then
          match HPDataSRC[i]? with
          | some (some d) => some d.data
          | _ => none
        else some NULL

/-- Removal of a payload (`hplugins_removeFromHPData`). -/
def hplugins_removeFromHPData (st : HPDataState) (type : HPluginDataTypes)
    (pluginID ptr index : Nat) : Option HPDataState :=
  let action := hplugins_grabHPData st type ptr
  match action.hdatac with
  | none => some st
  | some c =>
    match action.HPDataSRCPtr with
    | none => none
    | some a =>
      let HPDataSRC := st.HPDataSRC a
      let max := st.hdatac c
      match HPData_scan HPDataSRC pluginID index max 0 with
      | none => none
      | some i =>
        if i ≠ max then
          match HPDataSRC[i]? with
          | some (some d) =>
            match HPData_compact max 0 0 (HPDataSRC.set i none) with
            | none => none
            | some (HPDataSRC2, cursor) =>
              some { st with
                HPDataSRC := fun k => if k = a then HPDataSRC2 else st.HPDataSRC k
                hdatac := fun k => if k = c then cursor else st.hdatac k
                freed := st.freed ++ [d.data] }
          | _ => none
        else some st

/-- The host object whose fields are at `a` and `c` carries exactly `items`, in
this order: the count is their number and the first cells of the array point to
them. -/
def HPData_holds (st : HPDataState) (a c : Nat) (items : List HPluginData) : Prop :=
  st.hdatac c = items.length ∧ (st.HPDataSRC a).take (st.hdatac c) = items.map some

/-- The states of the host object `(type, ptr)` built from an object without
items by attach and remove operations on it. -/
inductive HPData_built (type : HPluginDataTypes) (ptr : Nat) : HPDataState → Prop where
  | fresh (st : HPDataState) (a c : Nat) :
      hplugins_grabHPData st type ptr = { HPDataSRCPtr := some a, hdatac := some c } →
      st.HPDataSRC a = [] → st.hdatac c = 0 → HPData_built type ptr st
  | attach (st st1 : HPDataState) (pluginID data index : Nat) (autofree : Bool) :
      HPData_built type ptr st →
      hplugins_addToHPData st type pluginID ptr data index autofree = some st1 →
      HPData_built type ptr st1
  | remove (st st1 : HPDataState) (pluginID index : Nat) :
      HPData_built type ptr st →
      hplugins_removeFromHPData st type pluginID ptr index = some st1 →
      HPData_built type ptr st1

/-! ## The length a dispatch has to wait for, in the words of the specification -/

/-- The resolved packet length of a registration on a session as the
specification words it: the 16-bit length of the registration or, for the
variable-length sentinel `0xFFFF`, the 16-bit word at buffer offset 2. -/
def resolved_length (packet : HPluginPacket) (s : socket_data) : Nat :=
  if packet.len % 65536 = 65535 then RFIFOW s 2 else packet.len % 65536

/-! ## Concrete states -/

/-- A packet table: two registrations at hook point 0 (the first of variable
length), one at hook point 1. -/
def ex_packets : Nat → List HPluginPacket := fun point =>
  if point = 0 then
    [{ pluginID := 1, cmd := 3840, len := 65535, receive := 77 },
     { pluginID := 2, cmd := 3841, len := 6, receive := 78 }]
  else if point = 1 then
    [{ pluginID := 1, cmd := 3842, len := 10, receive := 79 }]
  else []

/-- A session with `size` buffered bytes, the first of them `bytes`, and the
read cursor at the start. -/
def ex_session (bytes : List Nat) (size : Nat) : socket_data :=
  { rdata := fun i => bytes.getD i 0, rdata_size := size, rdata_pos := 0 }

/-- The state with the table `ex_packets` and the one session `s` on `fd` 5. -/
def ex_state (s : socket_data) : PacketState :=
  { packets := ex_packets
    session := fun fd => if fd = 5 then some s else none
    received := [] }

/-- A state in which no host object carries an item.  Its delegate resolves the
objects of host kind 1, whose fields are named by the address of the object,
and no other kind. -/
def ex_hp0 : HPDataState :=
  { grabHPDataSub := some (fun type ptr =>
      if type = HPluginDataTypes.HPDT_HOST 1 then
        some { HPDataSRCPtr := some ptr, hdatac := some ptr }
      else none)
    HPDataSRC := fun _ => []
    hdatac := fun _ => 0
    freed := [] }

/-- The state `ex_hp0` after the attach of the payload 500 to the session at
100 for plugin 1 and tag 2, with the auto-free flag set. -/
def ex_hp1 : HPDataState :=
  { ex_hp0 with
    HPDataSRC := fun k =>
      if k = 100 then [some { pluginID := 1, type := 2, free := true, data := 500 }] else []
    hdatac := fun k => if k = 100 then 1 else 0 }

/-- A state in which the object of host kind 1 at 200 carries three items. -/
def ex_hp3 : HPDataState :=
  { ex_hp0 with
    HPDataSRC := fun k =>
      if k = 200 then
        [some { pluginID := 1, type := 2, free := true, data := 500 },
         some { pluginID := 3, type := 4, free := false, data := 600 },
         some { pluginID := 1, type := 5, free := true, data := 700 }]
      else []
    hdatac := fun k => if k = 200 then 3 else 0 }

/-! ## Symbol registry -/

/-- One shared symbol (`struct hpm_symbol`): its name and its value (an
address). -/
structure hpm_symbol where
  name : String
  ptr : Nat
deriving DecidableEq, Repr

/-- Export of a symbol (`hplugin_export_symbol`) on the vector `HPM->symbols`:
the entry is pushed at the end. -/
def hplugin_export_symbol (symbols : List hpm_symbol) (value : Nat) (name : String) :
    List hpm_symbol :=
  symbols ++ [{ name := name, ptr := value }]

/-- Import of a symbol (`hplugin_import_symbol`) from the vector `HPM->symbols`:
the value of the entry found by the linear lookup with `strcmp`, or `NULL`.
`pID` only goes into the error message. -/
def hplugin_import_symbol (symbols : List hpm_symbol) (name : String) (_pID : Nat) : Nat :=
  let i := ARR_FIND (fun sym : hpm_symbol => sym.name == name) symbols
  if i ≠ symbols.length then
    match symbols[i]? with
    | some sym => sym.ptr
    | none => NULL
  else NULL

/-- The symbol table after a sequence of exports (value and name of each call,
in call order) on the empty table of `hpm_init`. -/
def shared_by (calls : List (Nat × String)) : List hpm_symbol :=
  calls.foldl (fun symbols call => hplugin_export_symbol symbols call.1 call.2) []

/-! ## Version check -/

/-- The C library test `isspace` in the "C" locale. -/
def isspace (c : Char) : Bool :=
  c.toNat == 32 || (9 ≤ c.toNat && c.toNat ≤ 13)

/-- The C library test `isdigit`. -/
def isdigit (c : Char) : Bool :=
  48 ≤ c.toNat && c.toNat ≤ 57

/-- The run of decimal digits at the head of the input: the number read, from
the number `acc` read so far, and the input left. -/
def scan_digits : Nat → List Char → Nat × List Char
  | acc, [] => (acc, [])
  | acc, c :: cs =>
    if isdigit c then scan_digits (10 * acc + (c.toNat - 48)) cs else (acc, c :: cs)

/-- One `%u` directive of the C library function `sscanf`: white space is
skipped, then an optional sign and a run of decimal digits are read.  The result
is the integer read and the input left, or `none` when the input does not
match. -/
def scan_u (input : List Char) : Option (Int × List Char) :=
  let s1 := input.dropWhile isspace
  let neg : Bool := s1.head? == some '-'
  let s2 := if s1.head? == some '-' || s1.head? == some '+' then s1.tail else s1
  match s2 with
  | [] => none
  | c :: _ =>
    if isdigit c then
      some (if neg then -((scan_digits 0 s2).1 : Int) else ((scan_digits 0 s2).1 : Int),
        (scan_digits 0 s2).2)
    else none

/-- The C library call `sscanf(version, "%u.%u", &req_major, &req_minor)` on
two variables that hold 0: the values of the two variables after the call.
There is no defined result (`none`) when a number read does not fit an
`unsigned int`. -/
def sscanf_u_dot_u (input : List Char) : Option (Nat × Nat) :=
  match scan_u input with
  | none => some (0, 0)
  | some (a, rest) =>
    if a < 0 ∨ 4294967296 ≤ a then none
    else
      match rest with
      | '.' :: rest1 =>
        match scan_u rest1 with
        | none => some (a.toNat, 0)
        | some (b, _) => if b < 0 ∨ 4294967296 ≤ b then none else some (a.toNat, b.toNat)
      | _ => some (a.toNat, 0)

/-- The version check (`hplugin_iscompatible`) against the host version
`HPM->version`; `none` as `version` is `NULL`. -/
def hplugin_iscompatible (HPM_version : Nat × Nat) (version : Option String) : Option Bool :=
  match version with
  | none => some false
  | some v =>
    match sscanf_u_dot_u v.data with
    | none => none
    | some (req_major, req_minor) =>
      some (req_major == HPM_version.1 && decide (req_minor ≤ HPM_version.2))

/-- The number that a run of decimal digits writes. -/
def decimal_value (digits : List Char) : Nat :=
  digits.foldl (fun acc c => 10 * acc + (c.toNat - 48)) 0

/-! ## ABI DataCheck registry -/

/-- One entry of a DataCheck table (`struct s_HPMDataCheck`): struct name, byte
size and role mask. -/
structure s_HPMDataCheck where
  name : String
  size : Nat
  type : Nat
deriving DecidableEq, Repr

/-- Modelled from the spec: the string-keyed map `DBMap` of `common/db.c`,
which is not under `src/`, as the name → value table it is used for: the value
bound to each name, if any. -/
abbrev DBMap := String → Option Nat

/-- Modelled from the spec: `strdb_alloc` of `common/db.c`, which is not under
`src/`: a table without entries. -/
def strdb_alloc : DBMap := fun _ => none

/-- Modelled from the spec: `strdb_uiput` of `common/db.c`, which is not under
`src/`: the name is bound to the value, in place of an older binding. -/
def strdb_uiput (db : DBMap) (key : String) (value : Nat) : DBMap :=
  fun k => if k = key then some value else db k

/-- Modelled from the spec: `strdb_exists` of `common/db.c`, which is not under
`src/`: whether the name is bound. -/
def strdb_exists (db : DBMap) (key : String) : Bool :=
  (db key).isSome

/-- Modelled from the spec: `strdb_uiget` of `common/db.c`, which is not under
`src/`: the value bound to the name (0 when there is none). -/
def strdb_uiget (db : DBMap) (key : String) : Nat :=
  (db key).getD 0

/-- The globals of the DataCheck registry: `datacheck_db`, `datacheck_version`
and `datacheck_data`. -/
structure DataCheckState where
  datacheck_db : DBMap
  datacheck_version : Int
  datacheck_data : List s_HPMDataCheck

/-- The loop of `HPM_datacheck_init`,
`for (i = 0; i < length; i++) strdb_uiput(datacheck_db, src[i].name, i);`
from index `i` with `n` entries left before `length`. -/
def datacheck_init_loop (src : List s_HPMDataCheck) : Nat → Nat → DBMap → Option DBMap
  | 0, _, db => some db
  | n + 1, i, db =>
    match src[i]? with
    | none => none
    | some e => datacheck_init_loop src n (i + 1) (strdb_uiput db e.name i)

/-- Set-up of the registry from the table of the host (`HPM_datacheck_init`). -/
def HPM_datacheck_init (src : List s_HPMDataCheck) (length : Nat) (version : Int) :
    Option DataCheckState :=
  match datacheck_init_loop src length 0 strdb_alloc with
  | none => none
  | some db => some { datacheck_db := db, datacheck_version := version, datacheck_data := src }

/-- The loop of `HPM_DataCheck` over the entries of the plugin, from index `i`
with `n` entries left before `size`. -/
def DataCheck_loop (SERVER_TYPE : Nat) (dc : DataCheckState) (src : List s_HPMDataCheck) :
    Nat → Nat → Option Bool
  | 0, _ => some true
  | n + 1, i =>
    match src[i]? with
    | none => none
    | some e =>
      if e.type &&& SERVER_TYPE = 0 then DataCheck_loop SERVER_TYPE dc src n (i + 1)
      else if !strdb_exists dc.datacheck_db e.name then some false
      else
        match dc.datacheck_data[strdb_uiget dc.datacheck_db e.name]? with
        | none => none
        | some h =>
          if e.size ≠ h.size then some false
          else DataCheck_loop SERVER_TYPE dc src n (i + 1)

/-- Validation of the table of a plugin (`HPM_DataCheck`); `SERVER_TYPE` is the
role of the running server, `name` only goes into the messages. -/
def HPM_DataCheck (SERVER_TYPE : Nat) (dc : DataCheckState) (src : List s_HPMDataCheck)
    (size : Nat) (version : Int) (_name : String) : Option Bool :=
  if version ≠ dc.datacheck_version then some false
  else DataCheck_loop SERVER_TYPE dc src size 0

/-! ## Plugin registry -/

/-- The C library function `tolower` in the "C" locale. -/
def tolower (c : Char) : Char :=
  if 65 ≤ c.toNat ∧ c.toNat ≤ 90 then Char.ofNat (c.toNat + 32) else c

/-- Modelled from the spec: `strcmpi` (the C library `strcasecmp`, named by a
macro of `common/cbasetypes.h` that is not under `src/`): equality of two
strings ignoring the case of the ASCII letters. -/
def strcmpi_eq (a b : String) : Bool :=
  a.data.map tolower == b.data.map tolower

/-- The five lifecycle events (`enum hp_event_types`, without its bound
`HPET_MAX`). -/
inductive hp_event_types where
  | HPET_INIT : hp_event_types
  | HPET_FINAL : hp_event_types
  | HPET_READY : hp_event_types
  | HPET_POST_FINAL : hp_event_types
  | HPET_PRE_INIT : hp_event_types
deriving DecidableEq, Repr, Fintype

/-- The metadata record a module declares (`struct hplugin_info`): role mask,
name, version and the host version it requires (`none` is `NULL`). -/
structure hplugin_info where
  type : Nat
  name : String
  version : String
  req_version : Option String
deriving DecidableEq, Repr

/-- The part of the capability table of a module (`struct HPMi_interface`) that
the registry reads: the plugin id and the entry point of each event (`none` is
`NULL`). -/
structure HPMi_interface where
  pid : Nat
  event : hp_event_types → Option Nat
deriving DecidableEq

/-- One plugin record (`struct hplugin`); `none` is `NULL`. -/
structure hplugin where
  idx : Nat
  filename : Option String
  info : Option hplugin_info
  dll : Option Nat
  hpi : Option HPMi_interface
deriving DecidableEq

/-- Modelled from the spec: a native module as the macros `plugin_open` and
`plugin_import` of `HPM.h`, which is not under `src/`, present it: its handle
and, for each symbol the manager asks for, what the module exports (`none` or
`false` when it does not export the symbol).  `HPM_shared_symbols` is the
version-negotiation export: it answers the name of a missing symbol, or `none`
for no error.  `Hooked` and `HPM_Plugin_AddHook` are the discovery pair of the
hooking module: the answer of `Hooked` (the name of a symbol it could not
retrieve, or `none`) and the resolver of hook targets. -/
structure PluginModule where
  dll : Nat
  pinfo : Option hplugin_info
  import_symbol : Bool
  HPMi : Bool
  HPMi_s : Bool
  plugin_init : Option Nat
  plugin_final : Option Nat
  server_online : Option Nat
  server_post_final : Option Nat
  server_preinit : Option Nat
  HPM_shared_symbols : Option (Nat → Option String)
  HPMDataCheckLen : Option Nat
  HPMDataCheckVer : Option Int
  HPMDataCheck : Option (List s_HPMDataCheck)
  Hooked : Option (Option String) := none
  HPM_Plugin_AddHook : Option (Nat → String → Nat → Nat → Bool) := none

/-- What the registry takes from the host process: the role `SERVER_TYPE` of the
running server and the dynamic loader (`plugin_open`, `none` when a file cannot
be opened). -/
structure HostEnv where
  SERVER_TYPE : Nat
  plugin_open : String → Option PluginModule

/-- The part of the process state that the plugin registry uses: the vector
`HPM->plugins`, the host version `HPM->version`, whether `HPM->DataCheck` is
set, the DataCheck globals, the handles closed with `plugin_close` and the log
of the event entry points called so far, each with the index of its plugin. -/
structure PluginState where
  plugins : List hplugin
  version : Nat × Nat
  DataCheck : Bool
  datacheck : DataCheckState
  closed : List Nat
  called : List (Nat × Nat)

/-- The loop of `hplugin_trigger_event` over the vector of plugins.  There is
no result when a plugin has no capability table (`plugin->hpi` is `NULL`). -/
def trigger_event_loop (type : hp_event_types) :
    List hplugin → List (Nat × Nat) → Option (List (Nat × Nat))
  | [], called => some called
  | plugin :: rest, called =>
    match plugin.hpi with
    | none => none
    | some hpi =>
      match hpi.event type with
      | some entry => trigger_event_loop type rest (called ++ [(plugin.idx, entry)])
      | none => trigger_event_loop type rest called

/-- Broadcast of an event (`hplugin_trigger_event`). -/
def hplugin_trigger_event (st : PluginState) (type : hp_event_types) : Option PluginState :=
  match trigger_event_loop type st.plugins st.called with
  | none => none
  | some called => some { st with called := called }

/-- The loop of `hplugin_exists` over the vector of plugins.  There is no
result when the loop meets a plugin without filename (`strcmpi` on `NULL`). -/
def exists_loop (filename : String) : List hplugin → Option Bool
  | [] => some false
  | plugin :: rest =>
    match plugin.filename with
    | none => none
    | some f => if strcmpi_eq f filename then some true else exists_loop filename rest

/-- Whether a plugin is loaded (`hplugin_exists`). -/
def hplugin_exists (st : PluginState) (filename : String) : Option Bool :=
  exists_loop filename st.plugins

/-- Creation and registration of a plugin record (`hplugin_create`): the record
and the state after the call. -/
def hplugin_create (st : PluginState) : hplugin × PluginState :=
  let plugin : hplugin :=
    { idx := st.plugins.length, filename := none, info := none, dll := none, hpi := none }
  (plugin, { st with plugins := st.plugins ++ [plugin] })

/-- Unload of a plugin (`hplugin_unload`): the handle is closed and the first
record of the vector with the index of `plugin` is erased
(`VECTOR_ERASE`). -/
def hplugin_unload (st : PluginState) (plugin : hplugin) : PluginState :=
  let closed := match plugin.dll with
    | some handle => st.closed ++ [handle]
    | none => st.closed
  let i := ARR_FIND (fun p : hplugin => p.idx == plugin.idx) st.plugins
  { st with
    plugins := if i ≠ st.plugins.length then st.plugins.eraseIdx i else st.plugins
    closed := closed }

/-- The loop of `hplugins_id2name` over the vector of plugins. -/
def id2name_loop (pid : Nat) : List hplugin → Option String
  | [] => some "UnknownPlugin"
  | plugin :: rest =>
    if plugin.idx = pid then
      match plugin.info with
      | some info => some info.name
      | none => none
    else id2name_loop pid rest

/-- The name of a plugin id (`hplugins_id2name`); `HPM_PID_CORE` is the id
reserved for the host, a macro of `HPM.h` that is not under `src/`.  There is
no result when the plugin found has no metadata (`plugin->info` is `NULL`). -/
def hplugins_id2name (HPM_PID_CORE : Nat) (st : PluginState) (pid : Nat) : Option String :=
  if pid = HPM_PID_CORE then some "core"
  else id2name_loop pid st.plugins

/-- How a call of `hplugin_load` ends: without defined result, with the end of
the process (`exit(EXIT_FAILURE)`), or with a return of the plugin (`none` is
`NULL`) in a state. -/
inductive LoadResult where
  | undefined : LoadResult
  | exit : LoadResult
  | ret (plugin : Option hplugin) (st : PluginState) : LoadResult

/-- Load of a module (`hplugin_load`).  The record made by `hplugin_create` is
the last one of the vector; what the function writes to it is written to the
vector.  The three DataCheck symbols are asked for one after the other and a
missing one ends the process, so they are matched together.  The wiring of the
host functions into the module and the call of `HPM->load_sub` are not part of
the state. -/
def hplugin_load (env : HostEnv) (st : PluginState) (filename : String) : LoadResult :=
  match hplugin_exists st filename with
  | none => LoadResult.undefined
  | some true => LoadResult.ret none st
  | some false =>
    let plugin := (hplugin_create st).1
    match env.plugin_open filename with
    | none => LoadResult.exit
    | some m =>
      let plugin1 : hplugin := { plugin with dll := some m.dll }
      match m.pinfo with
      | none => LoadResult.exit
      | some info =>
        if info.type &&& env.SERVER_TYPE = 0 then
          LoadResult.ret none
            (hplugin_unload { st with plugins := st.plugins ++ [plugin1] } plugin1)
        else
          match hplugin_iscompatible st.version info.req_version with
          | none => LoadResult.undefined
          | some false => LoadResult.exit
          | some true =>
            if !m.import_symbol then LoadResult.exit
            else if !m.HPMi then LoadResult.exit
            else if !m.HPMi_s then LoadResult.exit
            else
              let event : hp_event_types → Option Nat := fun type =>
                match type with
                | hp_event_types.HPET_INIT => m.plugin_init
                | hp_event_types.HPET_FINAL => m.plugin_final
                | hp_event_types.HPET_READY => m.server_online
                | hp_event_types.HPET_POST_FINAL => m.server_post_final
                | hp_event_types.HPET_PRE_INIT => m.server_preinit
              let anyEvent : Bool :=
                m.plugin_init.isSome || m.plugin_final.isSome || m.server_online.isSome
                  || m.server_post_final.isSome || m.server_preinit.isSome
              if !anyEvent then LoadResult.exit
              else
                match m.HPM_shared_symbols with
                | none => LoadResult.exit
                | some HPMLoadEvent =>
                  match HPMLoadEvent env.SERVER_TYPE with
                  | some _ => LoadResult.exit
                  | none =>
                    match m.HPMDataCheckLen, m.HPMDataCheckVer, m.HPMDataCheck with
                    | some len, some ver, some table =>
                      match (if st.DataCheck then
                          HPM_DataCheck env.SERVER_TYPE st.datacheck table len ver info.name
                        else some true) with
                      | none => LoadResult.undefined
                      | some false => LoadResult.exit
                      | some true =>
                        let plugin2 : hplugin :=
                          { plugin1 with
                            info := some info
                            filename := some filename
                            hpi := some { pid := plugin.idx, event := event } }
                        LoadResult.ret (some plugin2)
                          { st with plugins := st.plugins ++ [plugin2] }
                    | _, _, _ => LoadResult.exit

/-- The states of the registry reached from an empty registry by calls of
`hplugin_create` and by calls of `hplugin_unload` on the plugin registered
last. -/
inductive Registry_stacked : PluginState → Prop where
  | init (st : PluginState) : st.plugins = [] → Registry_stacked st
  | create (st : PluginState) : Registry_stacked st → Registry_stacked (hplugin_create st).2
  | unload_last (st : PluginState) (plugin : hplugin) :
      Registry_stacked st → st.plugins.getLast? = some plugin →
      Registry_stacked (hplugin_unload st plugin)

/-- The states of the registry reached from an empty registry by calls of
`hplugin_load` that return. -/
inductive Registry_loaded (env : HostEnv) : PluginState → Prop where
  | init (st : PluginState) : st.plugins = [] → Registry_loaded env st
  | load (st st1 : PluginState) (filename : String) (plugin : Option hplugin) :
      Registry_loaded env st → hplugin_load env st filename = LoadResult.ret plugin st1 →
      Registry_loaded env st1

/-- The states of the registry reached from an empty registry by calls of
`hplugin_load` that return and by calls of `hplugin_unload` on the plugin
registered last, which is how `hplugin_load` and `hpm_final` call it. -/
inductive Registry_reached (env : HostEnv) : PluginState → Prop where
  | init (st : PluginState) : st.plugins = [] → Registry_reached env st
  | load (st st1 : PluginState) (filename : String) (plugin : Option hplugin) :
      Registry_reached env st → hplugin_load env st filename = LoadResult.ret plugin st1 →
      Registry_reached env st1
  | unload_last (st : PluginState) (plugin : hplugin) :
      Registry_reached env st → st.plugins.getLast? = some plugin →
      Registry_reached env (hplugin_unload st plugin)

/-- One step of a history of the registry: a call of `hplugin_create`, or a call
of `hplugin_unload` on the plugin registered at a position. -/
inductive RegistryOp where
  | create : RegistryOp
  | unload (position : Nat) : RegistryOp
deriving DecidableEq, Repr

/-- The state after a history of creates and unloads, with the indices that the
creates assigned, in call order.  An unload at a position without plugin is
skipped. -/
def registry_run : List RegistryOp → PluginState → List Nat → PluginState × List Nat
  | [], st, assigned => (st, assigned)
  | RegistryOp.create :: ops, st, assigned =>
    registry_run ops (hplugin_create st).2 (assigned ++ [(hplugin_create st).1.idx])
  | RegistryOp.unload position :: ops, st, assigned =>
    match st.plugins[position]? with
    | some plugin => registry_run ops (hplugin_unload st plugin) assigned
    | none => registry_run ops st assigned

/-- The DataCheck table of a host: three structs, the third one of the char
server only. -/
def ex_host_table : List s_HPMDataCheck :=
  [{ name := "map_session_data", size := 8000, type := 4 },
   { name := "mob_data", size := 1200, type := 4 },
   { name := "char_session_data", size := 300, type := 2 }]

/-- The DataCheck table of a plugin built against `ex_host_table`; its second
entry is for the login server only and names a struct the host does not
have. -/
def ex_plugin_table : List s_HPMDataCheck :=
  [{ name := "mob_data", size := 1200, type := 4 },
   { name := "login_session_data", size := 99, type := 1 },
   { name := "map_session_data", size := 8000, type := 6 }]

/-- A module for the servers of role mask `type` that requires the host
version 1.0 and exports the init and the ready event. -/
def ex_module (dll type : Nat) (name : String) : PluginModule :=
  { dll := dll
    pinfo := some { type := type, name := name, version := "0.1", req_version := some "1.0" }
    import_symbol := true
    HPMi := true
    HPMi_s := true
    plugin_init := some (dll + 1)
    plugin_final := none
    server_online := some (dll + 3)
    server_post_final := none
    server_preinit := none
    HPM_shared_symbols := some (fun _ => none)
    HPMDataCheckLen := some 3
    HPMDataCheckVer := some 1
    HPMDataCheck := some ex_plugin_table }

/-- A map server (role 4) whose loader knows three files: two modules for the
map server and one for the login server. -/
def ex_env : HostEnv :=
  { SERVER_TYPE := 4
    plugin_open := fun filename =>
      if filename = "plugins/sample.so" then some (ex_module 9000 4 "sample")
      else if filename = "plugins/other.so" then some (ex_module 9100 6 "other")
      else if filename = "plugins/login.so" then some (ex_module 9200 1 "login")
      else none }

/-- The DataCheck globals after the set-up from `ex_host_table` with version
1. -/
def ex_datacheck : DataCheckState :=
  { datacheck_db :=
      strdb_uiput (strdb_uiput (strdb_uiput strdb_alloc "map_session_data" 0) "mob_data" 1)
        "char_session_data" 2
    datacheck_version := 1
    datacheck_data := ex_host_table }

/-- The registry of a host of version 1.2 before any load. -/
def ex_registry0 : PluginState :=
  { plugins := []
    version := (1, 2)
    DataCheck := true
    datacheck := ex_datacheck
    closed := []
    called := [] }

/-- The plugin record of `plugins/sample.so` once loaded first. -/
def ex_plugin_sample : hplugin :=
  { idx := 0
    filename := some "plugins/sample.so"
    info := some { type := 4, name := "sample", version := "0.1", req_version := some "1.0" }
    dll := some 9000
    hpi := some
      { pid := 0
        event := fun type =>
          match type with
          | hp_event_types.HPET_INIT => some 9001
          | hp_event_types.HPET_FINAL => none
          | hp_event_types.HPET_READY => some 9003
          | hp_event_types.HPET_POST_FINAL => none
          | hp_event_types.HPET_PRE_INIT => none } }

/-- The plugin record of `plugins/other.so` once loaded second. -/
def ex_plugin_other : hplugin :=
  { idx := 1
    filename := some "plugins/other.so"
    info := some { type := 6, name := "other", version := "0.1", req_version := some "1.0" }
    dll := some 9100
    hpi := some
      { pid := 1
        event := fun type =>
          match type with
          | hp_event_types.HPET_INIT => some 9101
          | hp_event_types.HPET_FINAL => none
          | hp_event_types.HPET_READY => some 9103
          | hp_event_types.HPET_POST_FINAL => none
          | hp_event_types.HPET_PRE_INIT => none } }

/-- The registry after the load of `plugins/sample.so`. -/
def ex_registry1 : PluginState :=
  { ex_registry0 with plugins := [ex_plugin_sample] }

/-- The registry after the loads of `plugins/sample.so` and
`plugins/other.so`. -/
def ex_registry2 : PluginState :=
  { ex_registry0 with plugins := [ex_plugin_sample, ex_plugin_other] }

/-- The part of the process state that the function hook registry uses:
`HPM->hooking`, the resolver `HPM->addhook_sub` of the host (`none` is `NULL`),
the flag `HPM->force_return`, and the log of the calls of the resolver, each
with its four arguments. -/
structure HookState where
  hooking : Bool
  addhook_sub : Option (Nat → String → Nat → Nat → Bool)
  force_return : Bool
  addhook_asked : List (Nat × String × Nat × Nat)

/-- Registration of a hook (`HPM_AddHook`): the returned flag and the state
after the call. -/
def HPM_AddHook (st : HookState) (type : Nat) (target : String) (hook pID : Nat) :
    Bool × HookState :=
  if !st.hooking then (false, st)
  else
    match st.addhook_sub with
    | none => (false, st)
    | some addhook_sub =>
      if addhook_sub type target hook pID then
        (true, { st with addhook_asked := st.addhook_asked ++ [(type, target, hook, pID)] })
      else
        (false, { st with addhook_asked := st.addhook_asked ++ [(type, target, hook, pID)] })

/-- Stop of the propagation (`HPM_HookStop`); the arguments are not used. -/
def HPM_HookStop (st : HookState) (_func : String) (_pID : Nat) : HookState :=
  { st with force_return := true }

/-- Read of the propagation flag (`HPM_HookStopped`). -/
def HPM_HookStopped (st : HookState) : Bool :=
  st.force_return

/-! ## Command-line extension -/

/-- Modelled from the spec: one registered command-line argument
(`struct CmdlineArgData` of `common/core.h`, which is not under `src/`), with
the six values `arg_add` receives; `shortname` is the code of the character. -/
structure CmdlineArgData where
  pluginID : Nat
  name : String
  shortname : Nat
  func : Nat
  help : Option String
  options : Nat
deriving DecidableEq, Repr

/-- Modelled from the spec: the command-line subsystem (`cmdline` of
`common/core.c`, which is not under `src/`) as far as the manager uses it: the
two option values and the function `arg_add`, which answers a flag and the
registered arguments after the call. -/
structure cmdline_interface where
  CMDLINE_OPT_NORMAL : Nat
  CMDLINE_OPT_PARAM : Nat
  arg_add : List CmdlineArgData → CmdlineArgData → Bool × List CmdlineArgData

/-- Registration of a command-line argument of a plugin (`hpm_add_arg`) on the
registered arguments `cmdline->args_data`; `none` as `name` is `NULL`. -/
def hpm_add_arg (cmdline : cmdline_interface) (args_data : List CmdlineArgData)
    (pluginID : Nat) (name : Option String) (has_param : Bool) (func : Nat)
    (help : Option String) : Bool × List CmdlineArgData :=
  match name with
  | none => (false, args_data)
  | some name =>
    if name.length < 3 ∨ name.data[0]? ≠ some '-' ∨ name.data[1]? ≠ some '-' then
      (false, args_data)
    else
      let i := ARR_FIND (fun arg : CmdlineArgData => arg.name == name) args_data
      if i < args_data.length then (false, args_data)
      else
        cmdline.arg_add args_data
          { pluginID := pluginID
            name := name
            shortname := 0
            func := func
            help := help
            options :=
              if has_param then cmdline.CMDLINE_OPT_PARAM else cmdline.CMDLINE_OPT_NORMAL }

/-! ## Config listener registry -/

/-- One config listener (`struct HPConfListenStorage`): owning plugin, stored
key (an array of `HPM_ADDCONF_LENGTH` characters) and callback. -/
structure HPConfListenStorage where
  pluginID : Nat
  key : String
  func : Nat
deriving DecidableEq, Repr

/-- Modelled from the spec: `safestrncpy(dst, src, n)` of `common/strlib.c`,
which is not under `src/`: the copy into an array of `n` characters, that is
the first `n - 1` characters of `src` and the end mark. -/
def safestrncpy (src : String) (n : Nat) : String :=
  String.mk (src.data.take (n - 1))

/-- The part of the process state that the config listener registry uses: the
listeners `HPM->confs[type]` of each category (`HPM->confsc[type]` is their
number) and the log of the callbacks called so far, each with its value. -/
structure ConfState where
  confs : Nat → List HPConfListenStorage
  conf_called : List (Nat × String)

/-- Registration of a config listener (`hplugins_addconf`); `HPCT_MAX`, the
number of categories, and `HPM_ADDCONF_LENGTH`, the size of a stored key, are
constants of `HPM.h`, which is not under `src/`. -/
def hplugins_addconf (HPCT_MAX HPM_ADDCONF_LENGTH : Nat) (st : ConfState)
    (pluginID type : Nat) (name : String) (func : Nat) : Bool × ConfState :=
  if type ≥ HPCT_MAX then (false, st)
  else if (st.confs type).any (fun conf => strcmpi_eq name conf.key) then (false, st)
  else
    let conf : HPConfListenStorage :=
      { pluginID := pluginID, key := safestrncpy name HPM_ADDCONF_LENGTH, func := func }
    (true,
      { st with
        confs := fun k => if k = type then st.confs type ++ [conf] else st.confs k })

/-- Dispatch of a configuration key (`hplugins_parse_conf`): the returned flag
and the state after the call.  The C code does not check `point`: there is no
result for a category outside the arrays `HPM->confs` and `HPM->confsc`, which
have `HPCT_MAX` entries. -/
def hplugins_parse_conf (HPCT_MAX : Nat) (st : ConfState) (w1 w2 : String) (point : Nat) :
    Option (Bool × ConfState) :=
  if point ≥ HPCT_MAX then none
  else
    let i := ARR_FIND (fun conf : HPConfListenStorage => strcmpi_eq w1 conf.key) (st.confs point)
    if i ≠ (st.confs point).length then
      match (st.confs point)[i]? with
      | some conf => some (true, { st with conf_called := st.conf_called ++ [(conf.func, w2)] })
      | none => none
    else some (false, st)

/-- The listener registry after a sequence of registrations (plugin, category,
key and callback of each call, in call order) on the empty registry. -/
def confs_after (HPCT_MAX HPM_ADDCONF_LENGTH : Nat) (calls : List (Nat × Nat × String × Nat)) :
    ConfState :=
  calls.foldl
    (fun st call =>
      (hplugins_addconf HPCT_MAX HPM_ADDCONF_LENGTH st call.1 call.2.1 call.2.2.1 call.2.2.2).2)
    { confs := fun _ => [], conf_called := [] }

/-! ## The manager as a whole -/

/-- The state of the manager (`struct HPM_interface` with the globals of
`HPM.c`): the states of its registries. -/
structure HPM_interface where
  packet : PacketState
  hpdata : HPDataState
  registry : PluginState
  symbols : List hpm_symbol
  conf : ConfState
  hook : HookState

/-- One call of a registry operation, with its arguments. -/
inductive HPM_call where
  | AddHook (type : Nat) (target : String) (hook pID : Nat) : HPM_call
  | HookStop (func : String) (pID : Nat) : HPM_call
  | HookStopped : HPM_call
  | addPacket (cmd length receive point pluginID : Nat) : HPM_call
  | parse_packets (fd : Int) (point : Nat) : HPM_call
  | addToHPData (type : HPluginDataTypes) (pluginID ptr data index : Nat) (autofree : Bool) :
      HPM_call
  | getFromHPData (type : HPluginDataTypes) (pluginID ptr index : Nat) : HPM_call
  | removeFromHPData (type : HPluginDataTypes) (pluginID ptr index : Nat) : HPM_call
  | addConf (pluginID type : Nat) (name : String) (func : Nat) : HPM_call
  | parseConf (w1 w2 : String) (point : Nat) : HPM_call
  | share (value : Nat) (name : String) : HPM_call
  | import_symbol (name : String) (pID : Nat) : HPM_call
  | create : HPM_call
  | unload (plugin : hplugin) : HPM_call
  | event (type : hp_event_types) : HPM_call

/-- The state of the manager after one call of a registry operation; the
constants `hpPHP_MAX`, `HPCT_MAX` and `HPM_ADDCONF_LENGTH` of `HPM.h` are
parameters.  There is no state when the call has no defined result. -/
def HPM_do (hpPHP_MAX HPCT_MAX HPM_ADDCONF_LENGTH : Nat) (st : HPM_interface) :
    HPM_call → Option HPM_interface
  | HPM_call.AddHook type target hook pID =>
    some { st with hook := (HPM_AddHook st.hook type target hook pID).2 }
  | HPM_call.HookStop func pID => some { st with hook := HPM_HookStop st.hook func pID }
  | HPM_call.HookStopped => some st
  | HPM_call.addPacket cmd length receive point pluginID =>
    some { st with
      packet := (hplugins_addpacket hpPHP_MAX st.packet cmd length receive point pluginID).2 }
  | HPM_call.parse_packets fd point =>
    match hplugins_parse_packets st.packet fd point with
    | some result => some { st with packet := result.2 }
    | none => none
  | HPM_call.addToHPData type pluginID ptr data index autofree =>
    match hplugins_addToHPData st.hpdata type pluginID ptr data index autofree with
    | some hpdata => some { st with hpdata := hpdata }
    | none => none
  | HPM_call.getFromHPData type pluginID ptr index =>
    match hplugins_getFromHPData st.hpdata type pluginID ptr index with
    | some _ => some st
    | none => none
  | HPM_call.removeFromHPData type pluginID ptr index =>
    match hplugins_removeFromHPData st.hpdata type pluginID ptr index with
    | some hpdata => some { st with hpdata := hpdata }
    | none => none
  | HPM_call.addConf pluginID type name func =>
    some { st with
      conf := (hplugins_addconf HPCT_MAX HPM_ADDCONF_LENGTH st.conf pluginID type name func).2 }
  | HPM_call.parseConf w1 w2 point =>
    match hplugins_parse_conf HPCT_MAX st.conf w1 w2 point with
    | some result => some { st with conf := result.2 }
    | none => none
  | HPM_call.share value name =>
    some { st with symbols := hplugin_export_symbol st.symbols value name }
  | HPM_call.import_symbol _ _ => some st
  | HPM_call.create => some { st with registry := (hplugin_create st.registry).2 }
  | HPM_call.unload plugin => some { st with registry := hplugin_unload st.registry plugin }
  | HPM_call.event type =>
    match hplugin_trigger_event st.registry type with
    | some registry => some { st with registry := registry }
    | none => none

/-- The state of the manager after a sequence of calls. -/
def HPM_run (hpPHP_MAX HPCT_MAX HPM_ADDCONF_LENGTH : Nat) :
    List HPM_call → HPM_interface → Option HPM_interface
  | [], st => some st
  | call :: calls, st =>
    match HPM_do hpPHP_MAX HPCT_MAX HPM_ADDCONF_LENGTH st call with
    | some st1 => HPM_run hpPHP_MAX HPCT_MAX HPM_ADDCONF_LENGTH calls st1
    | none => none

/-! ## Configuration-driven load -/

/-- The characters of a text that fit in `n` bytes, each character with the
bytes of its UTF-8 encoding.  There is no result when the cut falls inside the
bytes of a character: what is left is not a string. -/
def snprintf_cut : Nat → List Char → Option (List Char)
  | _, [] => some []
  | n, c :: cs =>
    if c.utf8Size ≤ n then (snprintf_cut (n - c.utf8Size) cs).map (fun rest => c :: rest)
    else if n = 0 then some []
    else none

/-- The C library call `snprintf(buffer, size, ...)`: the text written to the
buffer, that is the first `size - 1` bytes of the formatted text.  A string of
the embedding stands for the bytes of its UTF-8 encoding; there is no result
when the buffer ends inside the bytes of a character. -/
def snprintf (size : Nat) (text : String) : Option String :=
  (snprintf_cut (size - 1) text.data).map String.mk

/-- Modelled from the spec: `strncmpi` (the C library `strncasecmp`, named by a
macro of `common/cbasetypes.h` that is not under `src/`): equality of the first
`n` characters of two strings ignoring the case of the ASCII letters.  The
manager calls it with a second string of `n` ASCII letters, for which the first
`n` characters are the first `n` bytes. -/
def strncmpi_eq (a b : String) (n : Nat) : Bool :=
  (a.data.take n).map tolower == (b.data.take n).map tolower

/-- Modelled from the spec: the role of the login server (`enum server_types`
of `common/core.h`, which is not under `src/`). -/
def SERVER_TYPE_LOGIN : Nat := 1

/-- Modelled from the spec: the role of the char server (`enum server_types`
of `common/core.h`, which is not under `src/`). -/
def SERVER_TYPE_CHAR : Nat := 2

/-- Modelled from the spec: the role of the map server (`enum server_types` of
`common/core.h`, which is not under `src/`). -/
def SERVER_TYPE_MAP : Nat := 4

/-- The suffix of the name of the hooking module for a server role
(`plugin_name_suffix` in `hplugins_config_read`). -/
def plugin_name_suffix (SERVER_TYPE : Nat) : String :=
  if SERVER_TYPE = SERVER_TYPE_LOGIN then "_login"
  else if SERVER_TYPE = SERVER_TYPE_CHAR then "_char"
  else if SERVER_TYPE = SERVER_TYPE_MAP then "_map"
  else ""

/-- How a run of `hplugins_config_read` ends: by a return, by the end of the
process in a load, or without a result in the embedding. -/
inductive ConfigOutcome where
  | undefined : ConfigOutcome
  | exit : ConfigOutcome
  | ret (st : HPM_interface) : ConfigOutcome

/-- What a run of `hplugins_config_read` does: the filenames it passes to
`HPM->load`, in call order, and how it ends.  A filename that the buffer cuts
inside a character is the request `none`. -/
structure ConfigRead where
  requested : List (Option String)
  outcome : ConfigOutcome

/-- The first loop of `hplugins_config_read`: the load of the hooking module
for the first entry that names it, and the installation of its resolver.  A
load of a filename that is not a string has no result. -/
def config_read_hooking (env : HostEnv) (DLL_EXT hooking_plugin_name : String) :
    List String → HPM_interface → ConfigRead
  | [], st => { requested := [], outcome := ConfigOutcome.ret st }
  | plugin_name :: rest, st =>
    if strcmpi_eq plugin_name "HPMHooking" || strcmpi_eq plugin_name hooking_plugin_name then
      match snprintf 60 ("plugins/" ++ hooking_plugin_name ++ DLL_EXT) with
      | none => { requested := [none], outcome := ConfigOutcome.undefined }
      | some filename =>
        match hplugin_load env st.registry filename with
        | LoadResult.undefined =>
          { requested := [some filename], outcome := ConfigOutcome.undefined }
        | LoadResult.exit => { requested := [some filename], outcome := ConfigOutcome.exit }
        | LoadResult.ret none registry =>
          { requested := [some filename]
            outcome := ConfigOutcome.ret { st with registry := registry } }
        | LoadResult.ret (some _) registry =>
          let st1 : HPM_interface := { st with registry := registry }
          match env.plugin_open filename with
          | none => { requested := [some filename], outcome := ConfigOutcome.ret st1 }
          | some m =>
            match m.Hooked, m.HPM_Plugin_AddHook with
            | some none, some addhook_sub =>
              { requested := [some filename]
                outcome := ConfigOutcome.ret
                  { st1 with
                    hook := { st1.hook with hooking := true, addhook_sub := some addhook_sub } } }
            | _, _ => { requested := [some filename], outcome := ConfigOutcome.ret st1 }
    else config_read_hooking env DLL_EXT hooking_plugin_name rest st

/-- The second loop of `hplugins_config_read`: the load of every entry whose
first 10 characters are not `HPMHooking`.  A load of a filename that is not a
string has no result. -/
def config_read_loop (env : HostEnv) (DLL_EXT : String) :
    List String → HPM_interface → ConfigRead
  | [], st => { requested := [], outcome := ConfigOutcome.ret st }
  | plugin_name :: rest, st =>
    if strncmpi_eq plugin_name "HPMHooking" 10 then config_read_loop env DLL_EXT rest st
    else
      match snprintf 60 ("plugins/" ++ plugin_name ++ DLL_EXT) with
      | none => { requested := [none], outcome := ConfigOutcome.undefined }
      | some filename =>
        match hplugin_load env st.registry filename with
        | LoadResult.undefined =>
          { requested := [some filename], outcome := ConfigOutcome.undefined }
        | LoadResult.exit => { requested := [some filename], outcome := ConfigOutcome.exit }
        | LoadResult.ret _ registry =>
          { requested :=
              some filename ::
                (config_read_loop env DLL_EXT rest { st with registry := registry }).requested
            outcome :=
              (config_read_loop env DLL_EXT rest { st with registry := registry }).outcome }

/-- The configuration-driven load (`hplugins_config_read`).  `DLL_EXT` is the
library extension, a macro of `HPM.h` that is not under `src/`;
`plugins_conf` is what the configuration reader gives: `none` when the file
cannot be read, `some none` when it has no `plugins_list`, and the entries of
the list otherwise; `cmdline_plugins` are the names of `HPM->cmdline_plugins`,
added to the list.  There is no defined result when names are to be added to a
list that is missing. -/
def hplugins_config_read (env : HostEnv) (DLL_EXT : String) (st : HPM_interface)
    (plugins_conf : Option (Option (List String))) (cmdline_plugins : List String) :
    ConfigRead :=
  match plugins_conf with
  | none => { requested := [], outcome := ConfigOutcome.ret st }
  | some none =>
    match cmdline_plugins with
    | [] => { requested := [], outcome := ConfigOutcome.ret st }
    | _ :: _ => { requested := [], outcome := ConfigOutcome.undefined }
  | some (some plugins_list) =>
    let plist := plugins_list ++ cmdline_plugins
    match snprintf 32 ("HPMHooking" ++ plugin_name_suffix env.SERVER_TYPE) with
    | none => { requested := [], outcome := ConfigOutcome.undefined }
    | some hooking_plugin_name =>
      let first := config_read_hooking env DLL_EXT hooking_plugin_name plist st
      match first.outcome with
      | ConfigOutcome.ret st1 =>
        { requested := first.requested ++ (config_read_loop env DLL_EXT plist st1).requested
          outcome := (config_read_loop env DLL_EXT plist st1).outcome }
      | ConfigOutcome.exit => { requested := first.requested, outcome := ConfigOutcome.exit }
      | ConfigOutcome.undefined =>
        { requested := first.requested, outcome := ConfigOutcome.undefined }

/-- The state of a manager before any registration, with the sessions of
`ex_state` and the host objects of `ex_hp3`; hooking is enabled with a resolver
that knows the target `clif->pc_load`. -/
def ex_hpm : HPM_interface :=
  { packet := ex_state (ex_session [1, 15, 8, 0] 9)
    hpdata := ex_hp3
    registry := ex_registry2
    symbols := []
    conf := { confs := fun _ => [], conf_called := [] }
    hook :=
      { hooking := true
        addhook_sub := some (fun _ target _ _ => target == "clif->pc_load")
        force_return := false
        addhook_asked := [] } }

/-- A sequence of calls that goes through every registry operation. -/
def ex_calls : List HPM_call :=
  [HPM_call.AddHook 0 "clif->pc_load" 4000 0,
   HPM_call.AddHook 1 "clif->unknown" 4001 0,
   HPM_call.HookStopped,
   HPM_call.addPacket 3850 10 88 0 1,
   HPM_call.parse_packets 5 0,
   HPM_call.addToHPData (HPluginDataTypes.HPDT_HOST 1) 3 200 800 5 false,
   HPM_call.getFromHPData (HPluginDataTypes.HPDT_HOST 1) 3 200 5,
   HPM_call.removeFromHPData (HPluginDataTypes.HPDT_HOST 1) 3 200 4,
   HPM_call.addConf 1 0 "my_rate" 500,
   HPM_call.parseConf "MY_RATE" "5" 0,
   HPM_call.share 77 "sample",
   HPM_call.import_symbol "sample" 1,
   HPM_call.event hp_event_types.HPET_READY,
   HPM_call.create,
   HPM_call.unload ex_plugin_other]

/-- A command-line subsystem whose `arg_add` registers every argument and
answers true. -/
def ex_cmdline : cmdline_interface :=
  { CMDLINE_OPT_NORMAL := 0
    CMDLINE_OPT_PARAM := 1
    arg_add := fun args_data arg => (true, args_data ++ [arg]) }

/-- The registered arguments of a host: `--help` and `--run-once`. -/
def ex_args : List CmdlineArgData :=
  [{ pluginID := 4294967295, name := "--help", shortname := 104, func := 300, help := none,
     options := 0 },
   { pluginID := 4294967295, name := "--run-once", shortname := 0, func := 301, help := none,
     options := 0 }]

/-- The map server of `ex_env` with two more files: the hooking module of the
map server, which exports the discovery pair (`Hooked` answers no error and the
resolver knows the target `clif->pc_load`), and a module for the map server
with the name `HPMHookingStats`. -/
def ex_env_hooking : HostEnv :=
  { SERVER_TYPE := 4
    plugin_open := fun filename =>
      if filename = "plugins/HPMHooking_map.so" then
        some
          { ex_module 9300 4 "HPMHooking" with
            Hooked := some none
            HPM_Plugin_AddHook := some (fun _ target _ _ => target == "clif->pc_load") }
      else if filename = "plugins/HPMHookingStats.so" then
        some (ex_module 9400 4 "HPMHookingStats")
      else ex_env.plugin_open filename }

/-- The manager before any load: the registry `ex_registry0`, no listener and
hooking not enabled. -/
def ex_hpm0 : HPM_interface :=
  { ex_hpm with
    registry := ex_registry0
    hook := { hooking := false, addhook_sub := none, force_return := false, addhook_asked := [] } }

/-! ## Lemmas on the linear lookup and on the integer conversions -/

theorem ARR_FIND_le {α : Type} (cmp : α → Bool) (l : List α) :
    ARR_FIND cmp l ≤ l.length := by
  induction l with
  | nil => simp [ARR_FIND]
  | cons x xs ih =>
    simp only [ARR_FIND, List.length_cons]
    split <;> omega

theorem ARR_FIND_eq_length {α : Type} (cmp : α → Bool) (l : List α) :
    ARR_FIND cmp l = l.length ↔ ∀ x ∈ l, cmp x = false := by
  induction l with
  | nil => simp [ARR_FIND]
  | cons x xs ih =>
    simp only [ARR_FIND, List.length_cons, List.mem_cons, forall_eq_or_imp]
    by_cases hx : cmp x = true
    · simp [hx]
    · have hx2 : cmp x = false := Bool.eq_false_iff.mpr hx
      simp [hx2, ih]

theorem ARR_FIND_find {α : Type} (cmp : α → Bool) (l : List α) (x : α)
    (h : l.find? cmp = some x) :
    ARR_FIND cmp l ≠ l.length ∧ l[ARR_FIND cmp l]? = some x := by
  induction l with
  | nil => simp at h
  | cons y ys ih =>
    by_cases hy : cmp y = true
    · simp only [List.find?, hy] at h
      simp only [ARR_FIND, hy, if_true, List.length_cons]
      injection h with h
      subst h
      simp
    · have hy2 : cmp y = false := Bool.eq_false_iff.mpr hy
      simp only [List.find?, hy2] at h
      obtain ⟨h1, h2⟩ := ih h
      simp only [ARR_FIND, hy2, Bool.false_eq_true, if_false, List.length_cons,
        List.getElem?_cons_succ]
      exact ⟨by omega, h2⟩

theorem toInt16_of_lt (n : Nat) (h : n < 32768) : toInt16 n = (n : Int) := by
  unfold toInt16
  have h1 : n % 65536 = n := Nat.mod_eq_of_lt (by omega)
  rw [h1, if_pos h]

theorem toInt16_sentinel (n : Nat) (h : n % 65536 = 65535) : toInt16 n = -1 := by
  unfold toInt16
  rw [h]
  decide

theorem toInt32_of_lt (n : Nat) (h : n < 2147483648) : toInt32 n = (n : Int) := by
  unfold toInt32
  have h1 : n % 4294967296 = n := Nat.mod_eq_of_lt (by omega)
  rw [h1, if_pos h]

/-- The length the dispatch compares with the buffered bytes is the resolved
length of the specification whenever that length is below `0x8000`. -/
theorem dispatch_length_of_lt (packet : HPluginPacket) (s : socket_data)
    (h : resolved_length packet s < 32768) :
    (if toInt16 packet.len = -1 then toInt16 (RFIFOW s 2) else toInt16 packet.len)
      = (resolved_length packet s : Int) := by
  unfold resolved_length at h ⊢
  by_cases hv : packet.len % 65536 = 65535
  · rw [if_pos hv] at h ⊢
    rw [toInt16_sentinel _ hv, if_pos rfl, toInt16_of_lt _ h]
  · rw [if_neg hv] at h ⊢
    have h2 : toInt16 packet.len = ((packet.len % 65536 : Nat) : Int) := by
      unfold toInt16
      rw [if_pos h]
    rw [h2]
    have h3 : ¬ (((packet.len % 65536 : Nat) : Int) = -1) := by omega
    rw [if_neg h3]

/-- What the dispatch does with the registration found for the buffered
command word. -/
theorem parse_packets_found (st : PacketState) (fd : Int) (point : Nat) (s : socket_data)
    (packet : HPluginPacket) (hs : st.session fd = some s)
    (hp : (st.packets point).find? (fun p => p.cmd == RFIFOW s 0) = some packet) :
    hplugins_parse_packets st fd point =
      if (if toInt16 packet.len = -1 then toInt16 (RFIFOW s 2) else toInt16 packet.len)
          > toInt32 (RFIFOREST s) then some (2, st)
      else some (1, RFIFOSKIP { st with received := st.received ++ [(packet.receive, fd)] } fd
        (if toInt16 packet.len = -1 then toInt16 (RFIFOW s 2) else toInt16 packet.len)) := by
  obtain ⟨h1, h2⟩ := ARR_FIND_find _ _ _ hp
  unfold hplugins_parse_packets
  simp only [hs, h1, if_false, h2]

/-- With a resolved length below `0x8000`, a packet that is not buffered in
full is reported incomplete and nothing is consumed. -/
theorem parse_packets_incomplete_of_lt (st : PacketState) (fd : Int) (point : Nat)
    (s : socket_data) (packet : HPluginPacket) (hs : st.session fd = some s)
    (hp : (st.packets point).find? (fun p => p.cmd == RFIFOW s 0) = some packet)
    (hlen : resolved_length packet s < 32768)
    (hrest : RFIFOREST s < resolved_length packet s) :
    hplugins_parse_packets st fd point = some (2, st) := by
  rw [parse_packets_found st fd point s packet hs hp, dispatch_length_of_lt packet s hlen,
    toInt32_of_lt _ (by omega)]
  rw [if_pos]
  omega

/-- With a resolved length `L` below `0x8000`, a packet that is buffered in
full is handed to the handler once, the cursor advances by `L` and the result
is `1`. -/
theorem parse_packets_handled_of_lt (st : PacketState) (fd : Int) (point : Nat)
    (s : socket_data) (packet : HPluginPacket) (hs : st.session fd = some s)
    (hp : (st.packets point).find? (fun p => p.cmd == RFIFOW s 0) = some packet)
    (hlen : resolved_length packet s < 32768)
    (hrest : resolved_length packet s ≤ RFIFOREST s) (hint : RFIFOREST s < 2147483648) :
    hplugins_parse_packets st fd point =
      some (1, { st with
        received := st.received ++ [(packet.receive, fd)]
        session := fun k =>
          if k = fd then some { s with rdata_pos := s.rdata_pos + resolved_length packet s }
          else st.session k }) := by
  rw [parse_packets_found st fd point s packet hs hp, dispatch_length_of_lt packet s hlen,
    toInt32_of_lt _ hint]
  rw [if_neg (by omega)]
  simp only [RFIFOSKIP, hs]
  have h : Int.toNat ((s.rdata_pos : Int) + (resolved_length packet s : Int))
      = s.rdata_pos + resolved_length packet s := by omega
  rw [h]

/-! ## Packet dispatch -/

/-- C1, on the code: the session holds 4 bytes, the command word `0x0F00` is
registered with the variable-length sentinel and the word at offset 2 is
`0x8000`, so fewer bytes are buffered than the resolved length (4 < 32768);
the dispatch does not answer 2: it calls the handler and answers 1, because the
length is held in an `int16` and `0x8000` becomes `-32768`. -/
theorem parse_packets_incomplete_int16 :
    (ex_packets 0).find? (fun p => p.cmd == RFIFOW (ex_session [0, 15, 0, 128] 4) 0)
      = some { pluginID := 1, cmd := 3840, len := 65535, receive := 77 } ∧
    resolved_length { pluginID := 1, cmd := 3840, len := 65535, receive := 77 }
      (ex_session [0, 15, 0, 128] 4) = 32768 ∧
    RFIFOREST (ex_session [0, 15, 0, 128] 4) = 4 ∧
    (hplugins_parse_packets (ex_state (ex_session [0, 15, 0, 128] 4)) 5 0).map
      (fun r => (r.1, r.2.received)) = some (1, [(77, 5)]) := by
  decide

/-- C2, on the code: the session holds 40000 bytes, the command word `0x0F00`
is registered with the variable-length sentinel and the word at offset 2 is
`0x8000`, so the packet of length `L = 32768` is buffered in full; the dispatch
calls the handler and answers 1, but the length is held in an `int16`:
`RFIFOSKIP` receives `-32768` and the read cursor is not advanced by `L` (here
it stays at 0). -/
theorem parse_packets_handled_int16 :
    (ex_packets 0).find? (fun p => p.cmd == RFIFOW (ex_session [0, 15, 0, 128] 40000) 0)
      = some { pluginID := 1, cmd := 3840, len := 65535, receive := 77 } ∧
    resolved_length { pluginID := 1, cmd := 3840, len := 65535, receive := 77 }
      (ex_session [0, 15, 0, 128] 40000) = 32768 ∧
    RFIFOREST (ex_session [0, 15, 0, 128] 40000) = 40000 ∧
    hplugins_parse_packets (ex_state (ex_session [0, 15, 0, 128] 40000)) 5 0
      = some (1, RFIFOSKIP
          { ex_state (ex_session [0, 15, 0, 128] 40000) with received := [(77, 5)] }
          5 (-32768)) ∧
    (hplugins_parse_packets (ex_state (ex_session [0, 15, 0, 128] 40000)) 5 0).map
      (fun r => (r.2.session 5).map (fun s => s.rdata_pos)) = some (some 0) :=
  ⟨by decide, by decide, by decide, rfl, by decide⟩

/-- C3: when no registration of the hook point has the command code at the head
of the buffer, the dispatch answers 0 and the state is the one before the call:
no handler is called and the read cursor stays; the registrations of the other
hook points play no part. -/
theorem parse_packets_unknown (st : PacketState) (fd : Int) (point : Nat) (s : socket_data)
    (hs : st.session fd = some s)
    (hno : ∀ p ∈ st.packets point, p.cmd ≠ RFIFOW s 0) :
    hplugins_parse_packets st fd point = some (0, st) := by
  have h : ARR_FIND (fun p : HPluginPacket => p.cmd == RFIFOW s 0) (st.packets point)
      = (st.packets point).length := by
    rw [ARR_FIND_eq_length]
    intro x hx
    simpa using hno x hx
  unfold hplugins_parse_packets
  simp only [hs, h, if_true]

/-- Witness of C3: the command code `0x0F02` is registered at hook point 1 and
not at hook point 0, where the dispatch answers 0. -/
theorem parse_packets_unknown_witness :
    (∃ p ∈ ex_packets 1, p.cmd = RFIFOW (ex_session [2, 15, 8, 0] 9) 0) ∧
    hplugins_parse_packets (ex_state (ex_session [2, 15, 8, 0] 9)) 5 0
      = some (0, ex_state (ex_session [2, 15, 8, 0] 9)) :=
  ⟨by decide, parse_packets_unknown _ 5 0 (ex_session [2, 15, 8, 0] 9) rfl (by decide)⟩

/-! ## Packet registration -/

theorem any_cmd_iff (l : List HPluginPacket) (cmd : Nat) :
    l.any (fun p => p.cmd == cmd) = true ↔ ∃ p ∈ l, p.cmd = cmd := by
  simp [List.any_eq_true]

/-- C4: a command code that is already registered at a hook point cannot be
registered there again, whatever the length, the handler and the plugin: the
call returns `false` and the state, with the packet tables of all hook points
and so the first registration, is the one before the call. -/
theorem addpacket_duplicate (hpPHP_MAX : Nat) (st : PacketState)
    (cmd length receive point pluginID : Nat) (hpoint : point < hpPHP_MAX)
    (hreg : ∃ p ∈ st.packets point, p.cmd = cmd) :
    hplugins_addpacket hpPHP_MAX st cmd length receive point pluginID = (false, st) := by
  unfold hplugins_addpacket
  rw [if_neg (by omega), if_pos ((any_cmd_iff _ _).mpr hreg)]

/-- Witness of C4: the command code `0x0F01`, registered at hook point 0 by
plugin 2 with length 6, is refused for plugin 9 with length 12. -/
theorem addpacket_duplicate_witness :
    hplugins_addpacket 7 (ex_state (ex_session [] 0)) 3841 12 80 0 9
      = (false, ex_state (ex_session [] 0)) :=
  addpacket_duplicate 7 (ex_state (ex_session [] 0)) 3841 12 80 0 9 (by decide) (by decide)

/-- C5: the registration returns `true` exactly when the hook point is known
and the command code is not registered there yet; it then appends the one entry
`(cmd, length, handler, pluginID)` to the table of that hook point and leaves
the tables of the other hook points, the sessions and the call log as they
were, so that the same command code can still be registered at any other hook
point where it is free. -/
theorem addpacket_true_iff (hpPHP_MAX : Nat) (st : PacketState)
    (cmd length receive point pluginID : Nat) :
    ((hplugins_addpacket hpPHP_MAX st cmd length receive point pluginID).1 = true ↔
      (point < hpPHP_MAX ∧ ∀ p ∈ st.packets point, p.cmd ≠ cmd)) ∧
    ((hplugins_addpacket hpPHP_MAX st cmd length receive point pluginID).1 = true →
      (hplugins_addpacket hpPHP_MAX st cmd length receive point pluginID).2.packets point
        = st.packets point ++
          [{ pluginID := pluginID, cmd := cmd, len := length, receive := receive }] ∧
      (∀ k, k ≠ point →
        (hplugins_addpacket hpPHP_MAX st cmd length receive point pluginID).2.packets k
          = st.packets k) ∧
      (hplugins_addpacket hpPHP_MAX st cmd length receive point pluginID).2.session
        = st.session ∧
      (hplugins_addpacket hpPHP_MAX st cmd length receive point pluginID).2.received
        = st.received ∧
      (∀ point2 length2 receive2 pluginID2, point2 ≠ point → point2 < hpPHP_MAX →
        (∀ p ∈ st.packets point2, p.cmd ≠ cmd) →
        (hplugins_addpacket hpPHP_MAX
          (hplugins_addpacket hpPHP_MAX st cmd length receive point pluginID).2
          cmd length2 receive2 point2 pluginID2).1 = true)) := by
  by_cases h1 : point ≥ hpPHP_MAX
  · have hf : hplugins_addpacket hpPHP_MAX st cmd length receive point pluginID
        = (false, st) := by
      unfold hplugins_addpacket
      rw [if_pos h1]
    rw [hf]
    constructor
    · constructor
      · intro h
        cases h
      · intro h
        omega
    · intro h
      cases h
  · by_cases h2 : (st.packets point).any (fun p => p.cmd == cmd) = true
    · have hf : hplugins_addpacket hpPHP_MAX st cmd length receive point pluginID
          = (false, st) := by
        unfold hplugins_addpacket
        rw [if_neg h1, if_pos h2]
      rw [hf]
      constructor
      · constructor
        · intro h
          cases h
        · intro h
          obtain ⟨p, hp, hc⟩ := (any_cmd_iff _ _).mp h2
          exact absurd hc (h.2 p hp)
      · intro h
        cases h
    · have hf : hplugins_addpacket hpPHP_MAX st cmd length receive point pluginID
          = (true, { st with
              packets := fun k =>
                if k = point then
                  st.packets point ++
                    [{ pluginID := pluginID, cmd := cmd, len := length, receive := receive }]
                else st.packets k }) := by
        unfold hplugins_addpacket
        rw [if_neg h1, if_neg h2]
      rw [hf]
      have hfree : ∀ p ∈ st.packets point, p.cmd ≠ cmd := by
        intro p hp hc
        exact h2 ((any_cmd_iff _ _).mpr ⟨p, hp, hc⟩)
      refine ⟨⟨fun _ => ⟨by omega, hfree⟩, fun _ => rfl⟩, fun _ => ?_⟩
      refine ⟨by simp, ?_, rfl, rfl, ?_⟩
      · intro k hk
        simp [hk]
      · intro point2 length2 receive2 pluginID2 hne hlt hfree2
        unfold hplugins_addpacket
        have h3 : ¬ (point2 ≥ hpPHP_MAX) := by omega
        have h4 : ¬ ((st.packets point2).any (fun p => p.cmd == cmd) = true) := by
          intro h
          obtain ⟨p, hp, hc⟩ := (any_cmd_iff _ _).mp h
          exact hfree2 p hp hc
        simp only [h3, if_false, hne, h4]
        simp

/-- Witness of C5: the command code `0x0F02`, registered at hook point 1, is
accepted at hook point 0 and is then present in both tables. -/
theorem addpacket_true_iff_witness :
    (hplugins_addpacket 7 (ex_state (ex_session [] 0)) 3842 10 81 0 9).1 = true ∧
    (∃ p ∈ (hplugins_addpacket 7 (ex_state (ex_session [] 0)) 3842 10 81 0 9).2.packets 0,
      p.cmd = 3842) ∧
    (∃ p ∈ (hplugins_addpacket 7 (ex_state (ex_session [] 0)) 3842 10 81 0 9).2.packets 1,
      p.cmd = 3842) :=
  ⟨((addpacket_true_iff 7 (ex_state (ex_session [] 0)) 3842 10 81 0 9).1).mpr
      ⟨by decide, by decide⟩,
    by decide, by decide⟩

/-! ## Lemmas on the item array -/

theorem holds_cell (src : List (Option HPluginData)) (items : List HPluginData) (i : Nat)
    (h : src.take items.length = items.map some) (hi : i < items.length) :
    src[i]? = some (some items[i]) := by
  have h1 := congrArg (fun l => l[i]?) h
  simp only [List.getElem?_take, hi, if_true, List.getElem?_map] at h1
  rw [h1, List.getElem?_eq_getElem hi]
  rfl

theorem holds_length_le (src : List (Option HPluginData)) (items : List HPluginData)
    (h : src.take items.length = items.map some) : items.length ≤ src.length := by
  have h1 := congrArg List.length h
  simp only [List.length_take, List.length_map] at h1
  omega

theorem HPData_scan_eq (src : List (Option HPluginData)) (items : List HPluginData)
    (pluginID index : Nat) (h : src.take items.length = items.map some) :
    ∀ n i, i + n = items.length →
      HPData_scan src pluginID index n i
        = some (i + ARR_FIND (HPData_match pluginID index) (items.drop i)) := by
  intro n
  induction n with
  | zero =>
    intro i hi
    have h1 : items.drop i = [] := List.drop_eq_nil_of_le (by omega)
    simp [HPData_scan, h1, ARR_FIND]
  | succ n ih =>
    intro i hi
    have hlt : i < items.length := by omega
    rw [HPData_scan, holds_cell src items i h hlt, List.drop_eq_getElem_cons hlt]
    simp only [ARR_FIND]
    by_cases hm : HPData_match pluginID index items[i] = true
    · simp [hm]
    · simp only [hm, if_false]
      rw [ih (i + 1) (by omega)]
      simp only [Bool.false_eq_true, if_false]
      congr 1
      omega

theorem HPData_compact_eq : ∀ (n i cursor : Nat) (A : List (Option HPluginData)),
    cursor ≤ i → i + n ≤ A.length →
    ∃ A1, HPData_compact n i cursor A
        = some (A1, cursor + (((A.drop i).take n).filterMap id).length) ∧
      A1.take (cursor + (((A.drop i).take n).filterMap id).length)
        = A.take cursor ++ (((A.drop i).take n).filterMap id).map some ∧
      A1.length = A.length := by
  intro n
  induction n with
  | zero =>
    intro i cursor A _ _
    exact ⟨A, by simp [HPData_compact], by simp, rfl⟩
  | succ n ih =>
    intro i cursor A hc hi
    have hlt : i < A.length := by omega
    have hdrop : (A.drop i).take (n + 1) = A[i] :: (A.drop (i + 1)).take n := by
      rw [List.drop_eq_getElem_cons hlt, List.take_succ_cons]
    rw [HPData_compact, List.getElem?_eq_getElem hlt, hdrop]
    cases hv : A[i] with
    | none =>
      obtain ⟨A1, h1, h2, h3⟩ := ih (i + 1) cursor A (by omega) (by omega)
      refine ⟨A1, ?_, ?_, h3⟩
      · simpa using h1
      · simpa using h2
    | some d =>
      have hlen : (if i ≠ cursor then A.set cursor (some d) else A).length = A.length := by
        split <;> simp
      have hdr : (if i ≠ cursor then A.set cursor (some d) else A).drop (i + 1)
          = A.drop (i + 1) := by
        split
        · exact List.drop_set_of_lt _ _ (by omega)
        · rfl
      have htk : (if i ≠ cursor then A.set cursor (some d) else A).take (cursor + 1)
          = A.take cursor ++ [some d] := by
        have hcl : cursor < A.length := by omega
        split
        · rw [List.set_eq_take_append_cons_drop, if_pos hcl,
            List.take_append_eq_append_take]
          simp [List.take_take, List.length_take, Nat.min_eq_left (Nat.le_of_lt hcl)]
        · rename_i heq
          have heq2 : i = cursor := by omega
          subst heq2
          rw [List.take_succ, List.getElem?_eq_getElem hlt, hv]
          rfl
      obtain ⟨A1, h1, h2, h3⟩ := ih (i + 1) (cursor + 1)
        (if i ≠ cursor then A.set cursor (some d) else A) (by omega) (by rw [hlen]; omega)
      rw [hdr] at h1 h2
      rw [htk] at h2
      refine ⟨A1, ?_, ?_, by rw [h3, hlen]⟩
      · simp only [List.filterMap_cons, id, List.length_cons]
        rw [h1]
        congr 2
        omega
      · simp only [List.filterMap_cons, id, List.length_cons, List.map_cons]
        have e : cursor + ((List.filterMap id (List.take n (List.drop (i + 1) A))).length + 1)
            = cursor + 1 + (List.filterMap id (List.take n (List.drop (i + 1) A))).length := by
          omega
        rw [e, h2]
        simp

theorem filterMap_set_none (items : List HPluginData) :
    ∀ i, i < items.length →
      ((items.map some).set i none).filterMap id = items.eraseIdx i := by
  induction items with
  | nil => intro i hi; simp at hi
  | cons x xs ih =>
    intro i hi
    cases i with
    | zero => simp [List.filterMap_map]
    | succ j =>
      simp only [List.length_cons] at hi
      simp only [List.map_cons, List.set_cons_succ, List.filterMap_cons, id,
        List.eraseIdx_cons_succ]
      rw [ih j (by omega)]

theorem ARR_FIND_of_find_none {α : Type} (cmp : α → Bool) (l : List α)
    (h : l.find? cmp = none) : ARR_FIND cmp l = l.length := by
  rw [ARR_FIND_eq_length]
  intro x hx
  have h1 := List.find?_eq_none.mp h x hx
  simpa using h1

theorem ARR_FIND_lt_of_find {α : Type} (cmp : α → Bool) (l : List α) (x : α)
    (h : l.find? cmp = some x) : ARR_FIND cmp l < l.length :=
  lt_of_le_of_ne (ARR_FIND_le cmp l) (ARR_FIND_find cmp l x h).1

theorem RECREATE_set (src : List (Option HPluginData)) (n : Nat) (x : Option HPluginData)
    (h : n ≤ src.length) : (RECREATE src (n + 1)).set (n + 1 - 1) x = src.take n ++ [x] := by
  have hlen : (RECREATE src (n + 1)).length = n + 1 := by
    simp only [RECREATE, List.length_append, List.length_take, List.length_replicate]
    omega
  have htake : (RECREATE src (n + 1)).take n = src.take n := by
    unfold RECREATE
    rw [List.take_append_of_le_length (by simp only [List.length_take]; omega), List.take_take]
    congr 1
    omega
  rw [Nat.add_sub_cancel, List.set_eq_take_append_cons_drop, if_pos (by omega), htake,
    List.drop_eq_nil_of_le (by omega)]

theorem grabHPData_congr (st st1 : HPDataState) (h : st1.grabHPDataSub = st.grabHPDataSub)
    (type : HPluginDataTypes) (ptr : Nat) :
    hplugins_grabHPData st1 type ptr = hplugins_grabHPData st type ptr := by
  unfold hplugins_grabHPData
  rw [h]

/-- The lookup on an object that carries `items`: the payload of the first item
with the key, or `NULL`. -/
theorem getFromHPData_of_holds (st : HPDataState) (type : HPluginDataTypes)
    (pluginID ptr index a c : Nat) (items : List HPluginData)
    (hgrab : hplugins_grabHPData st type ptr = { HPDataSRCPtr := some a, hdatac := some c })
    (hobj : HPData_holds st a c items) :
    hplugins_getFromHPData st type pluginID ptr index =
      some (match items.find? (HPData_match pluginID index) with
        | some d => d.data
        | none => NULL) := by
  obtain ⟨hc, hsrc⟩ := hobj
  rw [hc] at hsrc
  unfold hplugins_getFromHPData
  simp only [hgrab, hc]
  rw [HPData_scan_eq _ items pluginID index hsrc items.length 0 (by omega)]
  simp only [List.drop_zero, Nat.zero_add]
  cases hf : items.find? (HPData_match pluginID index) with
  | none =>
    rw [ARR_FIND_of_find_none _ _ hf]
    simp
  | some d =>
    obtain ⟨h1, h2⟩ := ARR_FIND_find _ _ _ hf
    have hlt := ARR_FIND_lt_of_find _ _ _ hf
    have h3 : items[ARR_FIND (HPData_match pluginID index) items] = d := by
      rw [List.getElem?_eq_getElem hlt] at h2
      exact Option.some.inj h2
    simp only [ne_eq, h1, not_false_eq_true, if_true, holds_cell _ items _ hsrc hlt, h3]

/-- The attach on an object that carries `items`, none of them with the key:
the new item goes into the cell after them and the count grows by one. -/
theorem addToHPData_of_holds (st : HPDataState) (type : HPluginDataTypes)
    (pluginID ptr data index : Nat) (autofree : Bool) (a c : Nat) (items : List HPluginData)
    (hgrab : hplugins_grabHPData st type ptr = { HPDataSRCPtr := some a, hdatac := some c })
    (hobj : HPData_holds st a c items)
    (hnew : ∀ d ∈ items, HPData_match pluginID index d = false) :
    hplugins_addToHPData st type pluginID ptr data index autofree =
      some { st with
        HPDataSRC := fun k =>
          if k = a then
            (st.HPDataSRC a).take items.length ++
              [some { pluginID := pluginID, type := index, free := autofree, data := data }]
          else st.HPDataSRC k
        hdatac := fun k => if k = c then items.length + 1 else st.hdatac k } := by
  obtain ⟨hc, hsrc⟩ := hobj
  rw [hc] at hsrc
  unfold hplugins_addToHPData
  simp only [hgrab, hc]
  rw [HPData_scan_eq _ items pluginID index hsrc items.length 0 (by omega)]
  simp only [List.drop_zero, Nat.zero_add]
  rw [(ARR_FIND_eq_length _ _).mpr hnew]
  simp only [ne_eq, not_true_eq_false, if_false]
  rw [RECREATE_set _ _ _ (holds_length_le _ _ hsrc)]

/-- The attach on an object that carries an item with the key changes
nothing. -/
theorem addToHPData_of_present (st : HPDataState) (type : HPluginDataTypes)
    (pluginID ptr data index : Nat) (autofree : Bool) (a c : Nat) (items : List HPluginData)
    (d : HPluginData)
    (hgrab : hplugins_grabHPData st type ptr = { HPDataSRCPtr := some a, hdatac := some c })
    (hobj : HPData_holds st a c items)
    (hf : items.find? (HPData_match pluginID index) = some d) :
    hplugins_addToHPData st type pluginID ptr data index autofree = some st := by
  obtain ⟨hc, hsrc⟩ := hobj
  rw [hc] at hsrc
  unfold hplugins_addToHPData
  simp only [hgrab, hc]
  rw [HPData_scan_eq _ items pluginID index hsrc items.length 0 (by omega)]
  simp only [List.drop_zero, Nat.zero_add]
  rw [if_pos (ARR_FIND_find _ _ _ hf).1]

/-- The state after an attach carries the old items followed by the new one. -/
theorem holds_after_add (st : HPDataState) (pluginID data index : Nat) (autofree : Bool)
    (a c : Nat) (items : List HPluginData) (hobj : HPData_holds st a c items) :
    HPData_holds
      { st with
        HPDataSRC := fun k =>
          if k = a then
            (st.HPDataSRC a).take items.length ++
              [some { pluginID := pluginID, type := index, free := autofree, data := data }]
          else st.HPDataSRC k
        hdatac := fun k => if k = c then items.length + 1 else st.hdatac k }
      a c (items ++ [{ pluginID := pluginID, type := index, free := autofree, data := data }])
      := by
  obtain ⟨hc, hsrc⟩ := hobj
  rw [hc] at hsrc
  unfold HPData_holds
  simp only [if_true, List.length_append, List.length_singleton, List.map_append,
    List.map_cons, List.map_nil, true_and]
  rw [hsrc]
  apply List.take_of_length_le
  simp

/-- The removal on an object that carries `items`, with `d` the first item
with the key: the payload of `d` is released, the other items move up in their
order and the count drops by one. -/
theorem removeFromHPData_of_holds (st : HPDataState) (type : HPluginDataTypes)
    (pluginID ptr index a c : Nat) (items : List HPluginData) (d : HPluginData)
    (hgrab : hplugins_grabHPData st type ptr = { HPDataSRCPtr := some a, hdatac := some c })
    (hobj : HPData_holds st a c items)
    (hf : items.find? (HPData_match pluginID index) = some d) :
    ∃ A1, hplugins_removeFromHPData st type pluginID ptr index =
        some { st with
          HPDataSRC := fun k => if k = a then A1 else st.HPDataSRC k
          hdatac := fun k => if k = c then items.length - 1 else st.hdatac k
          freed := st.freed ++ [d.data] } ∧
      A1.take (items.length - 1)
        = (items.eraseIdx (ARR_FIND (HPData_match pluginID index) items)).map some := by
  obtain ⟨hc, hsrc⟩ := hobj
  rw [hc] at hsrc
  obtain ⟨h1, h2⟩ := ARR_FIND_find _ _ _ hf
  have hlt := ARR_FIND_lt_of_find _ _ _ hf
  have h3 : items[ARR_FIND (HPData_match pluginID index) items] = d := by
    rw [List.getElem?_eq_getElem hlt] at h2
    exact Option.some.inj h2
  have hle := holds_length_le _ _ hsrc
  obtain ⟨A1, k1, k2, _⟩ := HPData_compact_eq items.length 0 0
    ((st.HPDataSRC a).set (ARR_FIND (HPData_match pluginID index) items) none)
    (Nat.le_refl 0) (by simp only [List.length_set]; omega)
  have hfm : (((st.HPDataSRC a).set (ARR_FIND (HPData_match pluginID index) items) none).drop
      0).take items.length
      = (items.map some).set (ARR_FIND (HPData_match pluginID index) items) none := by
    rw [List.drop_zero, List.set_take, hsrc]
  rw [hfm, filterMap_set_none items _ hlt] at k1 k2
  have hlen : (items.eraseIdx (ARR_FIND (HPData_match pluginID index) items)).length
      = items.length - 1 := List.length_eraseIdx_of_lt hlt
  rw [hlen] at k1 k2
  simp only [Nat.zero_add, List.take_zero, List.nil_append] at k1 k2
  refine ⟨A1, ?_, k2⟩
  unfold hplugins_removeFromHPData
  simp only [hgrab, hc]
  rw [HPData_scan_eq _ items pluginID index hsrc items.length 0 (by omega)]
  simp only [List.drop_zero, Nat.zero_add, ne_eq, h1, not_false_eq_true, if_true,
    holds_cell _ items _ hsrc hlt, h3, k1]

/-- The removal on an object that carries no item with the key changes
nothing. -/
theorem removeFromHPData_of_absent (st : HPDataState) (type : HPluginDataTypes)
    (pluginID ptr index a c : Nat) (items : List HPluginData)
    (hgrab : hplugins_grabHPData st type ptr = { HPDataSRCPtr := some a, hdatac := some c })
    (hobj : HPData_holds st a c items)
    (hno : ∀ d ∈ items, HPData_match pluginID index d = false) :
    hplugins_removeFromHPData st type pluginID ptr index = some st := by
  obtain ⟨hc, hsrc⟩ := hobj
  rw [hc] at hsrc
  unfold hplugins_removeFromHPData
  simp only [hgrab, hc]
  rw [HPData_scan_eq _ items pluginID index hsrc items.length 0 (by omega)]
  simp only [List.drop_zero, Nat.zero_add]
  rw [(ARR_FIND_eq_length _ _).mpr hno]
  simp

theorem HPData_match_iff (pluginID index : Nat) (d : HPluginData) :
    HPData_match pluginID index d = true ↔ (d.pluginID = pluginID ∧ d.type = index) := by
  simp [HPData_match]

theorem HPData_match_false (pluginID index : Nat) (items : List HPluginData)
    (h : ∀ d ∈ items, ¬ (d.pluginID = pluginID ∧ d.type = index)) :
    ∀ d ∈ items, HPData_match pluginID index d = false := by
  intro d hd
  rw [Bool.eq_false_iff]
  intro hm
  exact h d hd ((HPData_match_iff _ _ _).mp hm)

theorem find_none_of_absent (pluginID index : Nat) (items : List HPluginData)
    (h : ∀ d ∈ items, ¬ (d.pluginID = pluginID ∧ d.type = index)) :
    items.find? (HPData_match pluginID index) = none := by
  rw [List.find?_eq_none]
  intro d hd hm
  exact h d hd ((HPData_match_iff _ _ _).mp hm)

/-- The state after a removal carries the old items without the erased one. -/
theorem holds_after_remove (st : HPDataState) (a c i data : Nat) (items : List HPluginData)
    (A1 : List (Option HPluginData)) (hi : i < items.length)
    (hA : A1.take (items.length - 1) = (items.eraseIdx i).map some) :
    HPData_holds
      { st with
        HPDataSRC := fun k => if k = a then A1 else st.HPDataSRC k
        hdatac := fun k => if k = c then items.length - 1 else st.hdatac k
        freed := st.freed ++ [data] }
      a c (items.eraseIdx i) := by
  unfold HPData_holds
  simp only [if_true]
  exact ⟨(List.length_eraseIdx_of_lt hi).symm, hA⟩

/-- With pairwise distinct keys, no item with the key is left once the first
one is erased. -/
theorem find_eraseIdx_none (pluginID index : Nat) (items : List HPluginData)
    (hnd : (items.map (fun d => (d.pluginID, d.type))).Nodup) :
    (items.eraseIdx (ARR_FIND (HPData_match pluginID index) items)).find?
      (HPData_match pluginID index) = none := by
  induction items with
  | nil => simp [ARR_FIND]
  | cons x xs ih =>
    simp only [List.map_cons, List.nodup_cons] at hnd
    by_cases hx : HPData_match pluginID index x = true
    · simp only [ARR_FIND, hx, if_true, List.eraseIdx_cons_zero]
      rw [List.find?_eq_none]
      intro y hy hm
      apply hnd.1
      rw [List.mem_map]
      refine ⟨y, hy, ?_⟩
      have h1 := (HPData_match_iff _ _ _).mp hx
      have h2 := (HPData_match_iff _ _ _).mp hm
      simp [h1.1, h1.2, h2.1, h2.2]
    · have hx2 : HPData_match pluginID index x = false := Bool.eq_false_iff.mpr hx
      simp only [ARR_FIND, hx2, Bool.false_eq_true, if_false, List.eraseIdx_cons_succ,
        List.find?_cons]
      exact ih hnd.2

/-- An object built by attach and remove operations resolves, carries a list
of items and no two of them have the same key. -/
theorem built_holds (type : HPluginDataTypes) (ptr : Nat) (st : HPDataState)
    (hb : HPData_built type ptr st) :
    ∃ a c items,
      hplugins_grabHPData st type ptr = { HPDataSRCPtr := some a, hdatac := some c } ∧
      HPData_holds st a c items ∧
      (items.map (fun d => (d.pluginID, d.type))).Nodup := by
  induction hb with
  | fresh st a c hgrab hsrc hc =>
    refine ⟨a, c, [], hgrab, ?_, by simp⟩
    unfold HPData_holds
    simp [hsrc, hc]
  | attach st st1 pluginID data index autofree _ hadd ih =>
    obtain ⟨a, c, items, hgrab, hobj, hnd⟩ := ih
    cases hf : items.find? (HPData_match pluginID index) with
    | some d =>
      rw [addToHPData_of_present st type pluginID ptr data index autofree a c items d
        hgrab hobj hf] at hadd
      cases hadd
      exact ⟨a, c, items, hgrab, hobj, hnd⟩
    | none =>
      have hnew : ∀ d ∈ items, HPData_match pluginID index d = false := by
        intro d hd
        have h1 := List.find?_eq_none.mp hf d hd
        simpa using h1
      rw [addToHPData_of_holds st type pluginID ptr data index autofree a c items
        hgrab hobj hnew] at hadd
      cases hadd
      refine ⟨a, c, items ++ [⟨pluginID, index, autofree, data⟩], ?_,
        holds_after_add st pluginID data index autofree a c items hobj, ?_⟩
      · rw [← hgrab]
        exact grabHPData_congr _ _ rfl type ptr
      · rw [List.map_append, List.nodup_append]
        refine ⟨hnd, by simp, ?_⟩
        intro k hk1 hk2
        simp only [List.map_cons, List.map_nil, List.mem_singleton] at hk2
        rw [List.mem_map] at hk1
        obtain ⟨d, hd, hdk⟩ := hk1
        have h1 := hnew d hd
        rw [Bool.eq_false_iff] at h1
        apply h1
        rw [HPData_match_iff]
        rw [hk2] at hdk
        simpa using hdk
  | remove st st1 pluginID index _ hrem ih =>
    obtain ⟨a, c, items, hgrab, hobj, hnd⟩ := ih
    cases hf : items.find? (HPData_match pluginID index) with
    | some d =>
      obtain ⟨A1, h1, h2⟩ := removeFromHPData_of_holds st type pluginID ptr index a c items d
        hgrab hobj hf
      rw [h1] at hrem
      cases hrem
      refine ⟨a, c, items.eraseIdx (ARR_FIND (HPData_match pluginID index) items), ?_,
        holds_after_remove st a c _ d.data items A1 (ARR_FIND_lt_of_find _ _ _ hf) h2, ?_⟩
      · rw [← hgrab]
        exact grabHPData_congr _ _ rfl type ptr
      · exact List.Nodup.sublist ((List.eraseIdx_sublist items _).map _) hnd
    | none =>
      have hno : ∀ d ∈ items, HPData_match pluginID index d = false := by
        intro d hd
        have h1 := List.find?_eq_none.mp hf d hd
        simpa using h1
      rw [removeFromHPData_of_absent st type pluginID ptr index a c items hgrab hobj hno]
        at hrem
      cases hrem
      exact ⟨a, c, items, hgrab, hobj, hnd⟩

/-! ## Extension data: attach, get and remove -/

/-- C6: on a host object whose kind resolves and that carries no item for
`(pluginID, index)`, an attach of `data` followed at once by a get with the
same key returns `data`, for every payload and auto-free flag. -/
theorem attach_then_get (st : HPDataState) (type : HPluginDataTypes)
    (pluginID ptr data index : Nat) (autofree : Bool) (a c : Nat) (items : List HPluginData)
    (hgrab : hplugins_grabHPData st type ptr = { HPDataSRCPtr := some a, hdatac := some c })
    (hobj : HPData_holds st a c items)
    (hnew : ∀ d ∈ items, ¬ (d.pluginID = pluginID ∧ d.type = index)) :
    ∃ st1, hplugins_addToHPData st type pluginID ptr data index autofree = some st1 ∧
      hplugins_getFromHPData st1 type pluginID ptr index = some data := by
  refine ⟨_, addToHPData_of_holds st type pluginID ptr data index autofree a c items hgrab hobj
    (HPData_match_false _ _ _ hnew), ?_⟩
  rw [getFromHPData_of_holds _ type pluginID ptr index a c _
    (by rw [← hgrab]; exact grabHPData_congr _ _ rfl type ptr)
    (holds_after_add st pluginID data index autofree a c items hobj)]
  rw [List.find?_append, find_none_of_absent _ _ _ hnew]
  simp [HPData_match]

/-- Witness of C6: on the object of host kind 1 at 200, which carries three
items, the payload 800 attached for plugin 3 and tag 5 is the one a get
returns. -/
theorem attach_then_get_witness :
    ∃ st1, hplugins_addToHPData ex_hp3 (HPluginDataTypes.HPDT_HOST 1) 3 200 800 5 false
        = some st1 ∧
      hplugins_getFromHPData st1 (HPluginDataTypes.HPDT_HOST 1) 3 200 5 = some 800 :=
  attach_then_get ex_hp3 (HPluginDataTypes.HPDT_HOST 1) 3 200 800 5 false 200 200
    [{ pluginID := 1, type := 2, free := true, data := 500 },
     { pluginID := 3, type := 4, free := false, data := 600 },
     { pluginID := 1, type := 5, free := true, data := 700 }]
    rfl ⟨rfl, rfl⟩ (by decide)

/-- C7: on a host object whose kind resolves and whose item array was built by
attach and remove operations, a remove followed by a get with the same key
returns `NULL`. -/
theorem remove_then_get (st : HPDataState) (type : HPluginDataTypes)
    (pluginID ptr index : Nat) (hb : HPData_built type ptr st) :
    ∃ st1, hplugins_removeFromHPData st type pluginID ptr index = some st1 ∧
      hplugins_getFromHPData st1 type pluginID ptr index = some NULL := by
  obtain ⟨a, c, items, hgrab, hobj, hnd⟩ := built_holds type ptr st hb
  cases hf : items.find? (HPData_match pluginID index) with
  | some d =>
    obtain ⟨A1, h1, h2⟩ := removeFromHPData_of_holds st type pluginID ptr index a c items d
      hgrab hobj hf
    refine ⟨_, h1, ?_⟩
    rw [getFromHPData_of_holds _ type pluginID ptr index a c _
      (by rw [← hgrab]; exact grabHPData_congr _ _ rfl type ptr)
      (holds_after_remove st a c _ d.data items A1 (ARR_FIND_lt_of_find _ _ _ hf) h2)]
    rw [find_eraseIdx_none pluginID index items hnd]
  | none =>
    have hno : ∀ d ∈ items, HPData_match pluginID index d = false := by
      intro d hd
      have h1 := List.find?_eq_none.mp hf d hd
      simpa using h1
    refine ⟨st, removeFromHPData_of_absent st type pluginID ptr index a c items hgrab hobj hno,
      ?_⟩
    rw [getFromHPData_of_holds st type pluginID ptr index a c items hgrab hobj, hf]

/-- Witness of C7: the session at 100 of `ex_hp1` was built by one attach on
the empty state `ex_hp0`; after the removal of its item the get returns
`NULL`. -/
theorem remove_then_get_witness :
    ∃ st1, hplugins_removeFromHPData ex_hp1 HPluginDataTypes.HPDT_SESSION 1 100 2 = some st1 ∧
      hplugins_getFromHPData st1 HPluginDataTypes.HPDT_SESSION 1 100 2 = some NULL :=
  remove_then_get ex_hp1 HPluginDataTypes.HPDT_SESSION 1 100 2
    (HPData_built.attach ex_hp0 ex_hp1 1 500 2 true
      (HPData_built.fresh ex_hp0 100 100 rfl rfl rfl) rfl)

/-- C8: on a host object that already carries an item for `(pluginID, index)`,
an attach with the same key is rejected whatever the payload and the auto-free
flag: the state, with the item array and the count of the object, is the one
before the call, and a get with the key still returns the payload of the item
attached first. -/
theorem attach_duplicate (st : HPDataState) (type : HPluginDataTypes)
    (pluginID ptr data index : Nat) (autofree : Bool) (a c : Nat) (items : List HPluginData)
    (d : HPluginData)
    (hgrab : hplugins_grabHPData st type ptr = { HPDataSRCPtr := some a, hdatac := some c })
    (hobj : HPData_holds st a c items)
    (hfirst : items.find? (HPData_match pluginID index) = some d) :
    hplugins_addToHPData st type pluginID ptr data index autofree = some st ∧
      hplugins_getFromHPData st type pluginID ptr index = some d.data := by
  refine ⟨addToHPData_of_present st type pluginID ptr data index autofree a c items d
    hgrab hobj hfirst, ?_⟩
  rw [getFromHPData_of_holds st type pluginID ptr index a c items hgrab hobj, hfirst]

/-- Witness of C8: the session at 100 of `ex_hp1` carries the payload 500 for
plugin 1 and tag 2; the attach of the payload 999 for the same key leaves the
state as it is and the get returns 500. -/
theorem attach_duplicate_witness :
    hplugins_addToHPData ex_hp1 HPluginDataTypes.HPDT_SESSION 1 100 999 2 false = some ex_hp1 ∧
      hplugins_getFromHPData ex_hp1 HPluginDataTypes.HPDT_SESSION 1 100 2 = some 500 :=
  attach_duplicate ex_hp1 HPluginDataTypes.HPDT_SESSION 1 100 999 2 false 100 100
    [{ pluginID := 1, type := 2, free := true, data := 500 }]
    { pluginID := 1, type := 2, free := true, data := 500 } rfl ⟨rfl, rfl⟩ (by decide)

/-- C9: on a host object whose kind resolves, a remove for a key that an item
`d` carries leaves the items of the object without `d` (the first item with
the key), the others in their order, and a count smaller by one, and releases
the payload of `d`; a remove for a key that no item carries leaves the state,
with the array and the count, as it was. -/
theorem remove_erases (st : HPDataState) (type : HPluginDataTypes)
    (pluginID ptr index a c : Nat) (items : List HPluginData)
    (hgrab : hplugins_grabHPData st type ptr = { HPDataSRCPtr := some a, hdatac := some c })
    (hobj : HPData_holds st a c items) :
    ∃ st1, hplugins_removeFromHPData st type pluginID ptr index = some st1 ∧
      (∀ d, items.find? (HPData_match pluginID index) = some d →
        items[ARR_FIND (HPData_match pluginID index) items]? = some d ∧
        HPData_holds st1 a c (items.eraseIdx (ARR_FIND (HPData_match pluginID index) items)) ∧
        st1.hdatac c + 1 = st.hdatac c ∧
        st1.freed = st.freed ++ [d.data]) ∧
      ((∀ d ∈ items, ¬ (d.pluginID = pluginID ∧ d.type = index)) → st1 = st) := by
  cases hf : items.find? (HPData_match pluginID index) with
  | some d =>
    obtain ⟨A1, h1, h2⟩ := removeFromHPData_of_holds st type pluginID ptr index a c items d
      hgrab hobj hf
    have hlt := ARR_FIND_lt_of_find _ _ _ hf
    refine ⟨_, h1, ?_, ?_⟩
    · intro d1 hd1
      cases hd1
      refine ⟨(ARR_FIND_find _ _ _ hf).2,
        holds_after_remove st a c _ d.data items A1 hlt h2, ?_, rfl⟩
      simp only [if_true]
      rw [hobj.1]
      omega
    · intro hno
      rw [find_none_of_absent _ _ _ hno] at hf
      cases hf
  | none =>
    have hno : ∀ d ∈ items, HPData_match pluginID index d = false := by
      intro d hd
      have h1 := List.find?_eq_none.mp hf d hd
      simpa using h1
    refine ⟨st, removeFromHPData_of_absent st type pluginID ptr index a c items hgrab hobj hno,
      ?_, fun _ => rfl⟩
    intro d hd
    cases hd

/-- Witness of C9: the object of host kind 1 at 200 carries three items; the
removal of the one of plugin 3 and tag 4, the second, leaves the first and the
third in this order, a count of 2 and the payload 600 released. -/
theorem remove_erases_witness :
    ∃ st1, hplugins_removeFromHPData ex_hp3 (HPluginDataTypes.HPDT_HOST 1) 3 200 4 = some st1 ∧
      HPData_holds st1 200 200
        [{ pluginID := 1, type := 2, free := true, data := 500 },
         { pluginID := 1, type := 5, free := true, data := 700 }] ∧
      st1.hdatac 200 = 2 ∧ st1.freed = [600] := by
  obtain ⟨st1, h1, h2, _⟩ := remove_erases ex_hp3 (HPluginDataTypes.HPDT_HOST 1) 3 200 4 200 200
    [{ pluginID := 1, type := 2, free := true, data := 500 },
     { pluginID := 3, type := 4, free := false, data := 600 },
     { pluginID := 1, type := 5, free := true, data := 700 }] rfl ⟨rfl, rfl⟩
  obtain ⟨_, h3, h4, h5⟩ := h2 { pluginID := 3, type := 4, free := false, data := 600 }
    (by decide)
  refine ⟨st1, h1, h3, ?_, h5⟩
  have h6 : ex_hp3.hdatac 200 = 3 := rfl
  omega

/-- C10: on a host object whose kind resolves and that carries no item for
`(pluginID, index)`, the attach succeeds and leaves the old items followed by
the one new item `(pluginID, index, data, autofree)` and a count larger by one;
the fields of the other objects and the release log are as before, and a get
for any other key returns what it returned before the attach. -/
theorem attach_appends (st : HPDataState) (type : HPluginDataTypes)
    (pluginID ptr data index : Nat) (autofree : Bool) (a c : Nat) (items : List HPluginData)
    (hgrab : hplugins_grabHPData st type ptr = { HPDataSRCPtr := some a, hdatac := some c })
    (hobj : HPData_holds st a c items)
    (hnew : ∀ d ∈ items, ¬ (d.pluginID = pluginID ∧ d.type = index)) :
    ∃ st1, hplugins_addToHPData st type pluginID ptr data index autofree = some st1 ∧
      HPData_holds st1 a c
        (items ++ [{ pluginID := pluginID, type := index, free := autofree, data := data }]) ∧
      st1.hdatac c = st.hdatac c + 1 ∧
      (∀ k, k ≠ a → st1.HPDataSRC k = st.HPDataSRC k) ∧
      (∀ k, k ≠ c → st1.hdatac k = st.hdatac k) ∧
      st1.freed = st.freed ∧
      (∀ p t, ¬ (p = pluginID ∧ t = index) →
        hplugins_getFromHPData st1 type p ptr t = hplugins_getFromHPData st type p ptr t) := by
  refine ⟨_, addToHPData_of_holds st type pluginID ptr data index autofree a c items hgrab hobj
    (HPData_match_false _ _ _ hnew),
    holds_after_add st pluginID data index autofree a c items hobj, ?_, ?_, ?_, rfl, ?_⟩
  · simp only [if_true]
    rw [hobj.1]
  · intro k hk
    simp only [hk, if_false]
  · intro k hk
    simp only [hk, if_false]
  · intro p t hpt
    rw [getFromHPData_of_holds _ type p ptr t a c _
      (by rw [← hgrab]; exact grabHPData_congr _ _ rfl type ptr)
      (holds_after_add st pluginID data index autofree a c items hobj),
      getFromHPData_of_holds st type p ptr t a c items hgrab hobj]
    have hm : HPData_match p t
        { pluginID := pluginID, type := index, free := autofree, data := data } = false := by
      rw [Bool.eq_false_iff]
      intro h
      have h1 := (HPData_match_iff _ _ _).mp h
      exact hpt ⟨h1.1.symm, h1.2.symm⟩
    rw [List.find?_append]
    cases hf : items.find? (HPData_match p t) with
    | some d => simp
    | none => simp [List.find?, hm]

/-- Witness of C10: the attach of the payload 800 for plugin 3 and tag 5 to the
object of host kind 1 at 200 makes its count 4, and the get for plugin 3 and
tag 4 returns 600 as before. -/
theorem attach_appends_witness :
    ∃ st1, hplugins_addToHPData ex_hp3 (HPluginDataTypes.HPDT_HOST 1) 3 200 800 5 true
        = some st1 ∧
      st1.hdatac 200 = 4 ∧
      hplugins_getFromHPData st1 (HPluginDataTypes.HPDT_HOST 1) 3 200 4 = some 600 := by
  obtain ⟨st1, h1, _, h3, _, _, _, h7⟩ := attach_appends ex_hp3 (HPluginDataTypes.HPDT_HOST 1)
    3 200 800 5 true 200 200
    [{ pluginID := 1, type := 2, free := true, data := 500 },
     { pluginID := 3, type := 4, free := false, data := 600 },
     { pluginID := 1, type := 5, free := true, data := 700 }] rfl ⟨rfl, rfl⟩ (by decide)
  refine ⟨st1, h1, ?_, ?_⟩
  · rw [h3]
    rfl
  · rw [h7 3 4 (by decide)]
    rfl

/-! ## Extension data: invariant and failed resolution -/

/-- C11: in every state of a host object reached from an object without items
by attach and remove operations, the object resolves, the stored count is the
number of items the array holds (its first cells, none of them `NULL`), and no
two of these items have the same `(pluginID, type)` pair. -/
theorem built_invariant (type : HPluginDataTypes) (ptr : Nat) (st : HPDataState)
    (hb : HPData_built type ptr st) :
    ∃ (a c : Nat) (items : List HPluginData),
      hplugins_grabHPData st type ptr = { HPDataSRCPtr := some a, hdatac := some c } ∧
      st.hdatac c = items.length ∧
      (st.HPDataSRC a).take (st.hdatac c) = items.map some ∧
      (∀ i j (hi : i < items.length) (hj : j < items.length), i ≠ j →
        ¬ (items[i].pluginID = items[j].pluginID ∧ items[i].type = items[j].type)) := by
  obtain ⟨a, c, items, hgrab, hobj, hnd⟩ := built_holds type ptr st hb
  refine ⟨a, c, items, hgrab, hobj.1, hobj.2, ?_⟩
  intro i j hi hj hij hkey
  have hi2 : i < (items.map (fun d => (d.pluginID, d.type))).length := by simpa using hi
  have hj2 : j < (items.map (fun d => (d.pluginID, d.type))).length := by simpa using hj
  have h1 := (@List.Nodup.getElem_inj_iff _ _ hnd i hi2 j hj2).mp
    (by simp [hkey.1, hkey.2])
  exact hij h1

/-- Witness of C11: the session at 100 of `ex_hp1`, built by one attach on the
empty state `ex_hp0`. -/
theorem built_invariant_witness :
    ∃ (a c : Nat) (items : List HPluginData),
      hplugins_grabHPData ex_hp1 HPluginDataTypes.HPDT_SESSION 100
        = { HPDataSRCPtr := some a, hdatac := some c } ∧
      ex_hp1.hdatac c = items.length ∧
      (ex_hp1.HPDataSRC a).take (ex_hp1.hdatac c) = items.map some ∧
      (∀ i j (hi : i < items.length) (hj : j < items.length), i ≠ j →
        ¬ (items[i].pluginID = items[j].pluginID ∧ items[i].type = items[j].type)) :=
  built_invariant HPluginDataTypes.HPDT_SESSION 100 ex_hp1
    (HPData_built.attach ex_hp0 ex_hp1 1 500 2 true
      (HPData_built.fresh ex_hp0 100 100 rfl rfl rfl) rfl)

/-- C12: for an object kind other than the session kind, when no delegate is
installed or the delegate reports failure, the resolution yields no address of
the array-pointer field and no address of the count field; the attach and the
remove then leave the whole state as it was and the get returns `NULL`. -/
theorem grabHPData_failure (st : HPDataState) (type : HPluginDataTypes)
    (pluginID ptr data index : Nat) (autofree : Bool)
    (htype : type ≠ HPluginDataTypes.HPDT_SESSION)
    (hsub : st.grabHPDataSub = none ∨
      ∃ sub, st.grabHPDataSub = some sub ∧ sub type ptr = none) :
    hplugins_grabHPData st type ptr = { HPDataSRCPtr := none, hdatac := none } ∧
    hplugins_addToHPData st type pluginID ptr data index autofree = some st ∧
    hplugins_removeFromHPData st type pluginID ptr index = some st ∧
    hplugins_getFromHPData st type pluginID ptr index = some NULL := by
  have hgrab : hplugins_grabHPData st type ptr = { HPDataSRCPtr := none, hdatac := none } := by
    unfold hplugins_grabHPData
    cases type with
    | HPDT_SESSION => exact absurd rfl htype
    | HPDT_HOST kind =>
      rcases hsub with h | ⟨sub, h1, h2⟩
      · simp only [h]
      · simp only [h1, h2]
  refine ⟨hgrab, ?_, ?_, ?_⟩
  · unfold hplugins_addToHPData
    simp only [hgrab]
  · unfold hplugins_removeFromHPData
    simp only [hgrab]
  · unfold hplugins_getFromHPData
    simp only [hgrab]

/-- Witness of C12: the delegate of `ex_hp3` does not know host kind 2, and a
state without delegate resolves no host kind. -/
theorem grabHPData_failure_witness :
    (hplugins_grabHPData ex_hp3 (HPluginDataTypes.HPDT_HOST 2) 200
        = { HPDataSRCPtr := none, hdatac := none } ∧
      hplugins_addToHPData ex_hp3 (HPluginDataTypes.HPDT_HOST 2) 1 200 500 2 true
        = some ex_hp3 ∧
      hplugins_removeFromHPData ex_hp3 (HPluginDataTypes.HPDT_HOST 2) 1 200 2 = some ex_hp3 ∧
      hplugins_getFromHPData ex_hp3 (HPluginDataTypes.HPDT_HOST 2) 1 200 2 = some NULL) ∧
    hplugins_getFromHPData { ex_hp3 with grabHPDataSub := none }
      (HPluginDataTypes.HPDT_HOST 1) 1 200 2 = some NULL :=
  ⟨grabHPData_failure ex_hp3 (HPluginDataTypes.HPDT_HOST 2) 1 200 500 2 true (by decide)
      (Or.inr ⟨_, rfl, rfl⟩),
    (grabHPData_failure { ex_hp3 with grabHPDataSub := none } (HPluginDataTypes.HPDT_HOST 1)
      1 200 500 2 true (by decide) (Or.inl rfl)).2.2.2⟩

/-! ## Symbol registry -/

theorem shared_by_foldl (calls : List (Nat × String)) (symbols : List hpm_symbol) :
    calls.foldl (fun symbols call => hplugin_export_symbol symbols call.1 call.2) symbols
      = symbols ++ calls.map (fun call => { name := call.2, ptr := call.1 }) := by
  induction calls generalizing symbols with
  | nil => simp
  | cons call rest ih =>
    rw [List.foldl_cons, ih]
    simp [hplugin_export_symbol]

theorem shared_by_eq_map (calls : List (Nat × String)) :
    shared_by calls = calls.map (fun call => { name := call.2, ptr := call.1 }) := by
  unfold shared_by
  rw [shared_by_foldl]
  simp

theorem import_symbol_eq_find (symbols : List hpm_symbol) (name : String) (pID : Nat) :
    hplugin_import_symbol symbols name pID =
      match symbols.find? (fun sym => sym.name == name) with
      | some sym => sym.ptr
      | none => NULL := by
  unfold hplugin_import_symbol
  cases hf : symbols.find? (fun sym => sym.name == name) with
  | none =>
    simp only [ARR_FIND_of_find_none _ _ hf, ne_eq, not_true_eq_false, if_false]
  | some sym =>
    obtain ⟨h1, h2⟩ := ARR_FIND_find _ _ _ hf
    simp only [ne_eq, h1, not_false_eq_true, if_true, h2]

/-- C15: on a symbol table built by a sequence of exports, the import of a name
returns the value of the earliest export under exactly this name, and `NULL`
when there is none; the requesting plugin plays no part, and one more export
under a name that is present does not change what the import of this name
returns. -/
theorem import_symbol_first (calls : List (Nat × String)) (name : String) (pID : Nat) :
    (hplugin_import_symbol (shared_by calls) name pID =
      match calls.find? (fun call => call.2 == name) with
      | some call => call.1
      | none => NULL) ∧
    (∀ pID2, hplugin_import_symbol (shared_by calls) name pID2
      = hplugin_import_symbol (shared_by calls) name pID) ∧
    (∀ value, (∃ call ∈ calls, call.2 = name) →
      hplugin_import_symbol (hplugin_export_symbol (shared_by calls) value name) name pID
        = hplugin_import_symbol (shared_by calls) name pID) := by
  have hfind : ∀ l : List (Nat × String),
      (l.map (fun call => ({ name := call.2, ptr := call.1 } : hpm_symbol))).find?
        (fun sym => sym.name == name)
      = (l.find? (fun call => call.2 == name)).map
          (fun call => ({ name := call.2, ptr := call.1 } : hpm_symbol)) := by
    intro l
    induction l with
    | nil => rfl
    | cons call rest ih =>
      simp only [List.map_cons, List.find?_cons]
      cases hc : call.2 == name <;> simp [ih]
  refine ⟨?_, fun _ => rfl, ?_⟩
  · rw [import_symbol_eq_find, shared_by_eq_map, hfind]
    cases calls.find? (fun call => call.2 == name) <;> rfl
  · intro value hex
    rw [import_symbol_eq_find, import_symbol_eq_find]
    unfold hplugin_export_symbol
    rw [List.find?_append, shared_by_eq_map, hfind]
    obtain ⟨call, hmem, hname⟩ := hex
    cases hf : calls.find? (fun call => call.2 == name) with
    | some c => rfl
    | none =>
      have h1 := List.find?_eq_none.mp hf call hmem
      simp [hname] at h1

/-- Witness of C15: the name `"b"` is exported with the value 20 and later with
the value 40; the import returns 20 for every requesting plugin, and an import
of a name never exported returns `NULL`. -/
theorem import_symbol_first_witness :
    hplugin_import_symbol (shared_by [(10, "a"), (20, "b"), (30, "B"), (40, "b")]) "b" 7 = 20 ∧
    hplugin_import_symbol (shared_by [(10, "a"), (20, "b"), (30, "B"), (40, "b")]) "c" 7
      = NULL :=
  ⟨(import_symbol_first [(10, "a"), (20, "b"), (30, "B"), (40, "b")] "b" 7).1,
    (import_symbol_first [(10, "a"), (20, "b"), (30, "B"), (40, "b")] "c" 7).1⟩

/-! ## Version check -/

theorem scan_digits_append (digits rest : List Char) (acc : Nat)
    (hd : ∀ c ∈ digits, isdigit c = true) (hr : ∀ c, rest.head? = some c → isdigit c = false) :
    scan_digits acc (digits ++ rest)
      = (digits.foldl (fun acc c => 10 * acc + (c.toNat - 48)) acc, rest) := by
  induction digits generalizing acc with
  | nil =>
    cases rest with
    | nil => rfl
    | cons c cs =>
      have h := hr c rfl
      simp [scan_digits, h]
  | cons d ds ih =>
    have h1 : isdigit d = true := hd d (List.mem_cons_self _ _)
    simp only [List.cons_append, scan_digits, h1, if_true, List.foldl_cons]
    exact ih _ (fun c hc => hd c (List.mem_cons_of_mem _ hc))

theorem isdigit_not_space (c : Char) (h : isdigit c = true) : isspace c = false := by
  simp only [isdigit, Bool.and_eq_true, decide_eq_true_eq] at h
  simp only [isspace, Bool.or_eq_false_iff, beq_eq_false_iff_ne, ne_eq, Bool.and_eq_false_imp,
    decide_eq_true_eq, decide_eq_false_iff_not]
  omega

theorem isdigit_not_sign (c : Char) (h : isdigit c = true) : c ≠ '-' ∧ c ≠ '+' := by
  simp only [isdigit, Bool.and_eq_true, decide_eq_true_eq] at h
  constructor
  · intro hc
    subst hc
    revert h
    decide
  · intro hc
    subst hc
    revert h
    decide

theorem scan_u_digits (digits rest : List Char) (hne : digits ≠ [])
    (hd : ∀ c ∈ digits, isdigit c = true) (hr : ∀ c, rest.head? = some c → isdigit c = false) :
    scan_u (digits ++ rest) = some ((decimal_value digits : Int), rest) := by
  cases digits with
  | nil => exact absurd rfl hne
  | cons d ds =>
    have h1 : isdigit d = true := hd d (List.mem_cons_self _ _)
    have h2 := isdigit_not_space d h1
    obtain ⟨h3, h4⟩ := isdigit_not_sign d h1
    have h5 := scan_digits_append (d :: ds) rest 0 hd hr
    simp only [List.cons_append] at h5
    have e1 : (some d == some '-') = false := by simp [h3]
    have e2 : (some d == some '+') = false := by simp [h4]
    unfold scan_u
    simp only [List.cons_append, List.dropWhile_cons, h2, Bool.false_eq_true, if_false,
      List.head?_cons, e1, e2, Bool.or_self, h1, if_true, h5, decimal_value]

/-- C13: for a host version `(M, m)` and a version string `a.b` written with
decimal digits, the numbers `a` and `b` fitting an `unsigned int`, the check
answers true exactly when `a = M` and `b ≤ m`; a `NULL` string is rejected; the
host 2.3 accepts `2.0` and `2.3` and rejects `2.4`, `1.9` and `3.0`. -/
theorem iscompatible_iff :
    (∀ (M m : Nat) (a b : List Char), a ≠ [] → b ≠ [] →
      (∀ c ∈ a, isdigit c = true) → (∀ c ∈ b, isdigit c = true) →
      decimal_value a < 4294967296 → decimal_value b < 4294967296 →
      hplugin_iscompatible (M, m) (some (String.mk (a ++ '.' :: b)))
        = some (decide (decimal_value a = M ∧ decimal_value b ≤ m))) ∧
    (∀ M m : Nat, hplugin_iscompatible (M, m) none = some false) ∧
    hplugin_iscompatible (2, 3) (some "2.0") = some true ∧
    hplugin_iscompatible (2, 3) (some "2.3") = some true ∧
    hplugin_iscompatible (2, 3) (some "2.4") = some false ∧
    hplugin_iscompatible (2, 3) (some "1.9") = some false ∧
    hplugin_iscompatible (2, 3) (some "3.0") = some false := by
  refine ⟨?_, fun _ _ => rfl, by decide, by decide, by decide, by decide, by decide⟩
  intro M m a b ha hb hda hdb hva hvb
  have h1 : scan_u (a ++ '.' :: b) = some ((decimal_value a : Int), '.' :: b) :=
    scan_u_digits a ('.' :: b) ha hda (by
      intro c hc
      simp only [List.head?_cons, Option.some.injEq] at hc
      subst hc
      decide)
  have h2 : scan_u b = some ((decimal_value b : Int), []) := by
    have h := scan_u_digits b [] hb hdb (by intro c hc; simp at hc)
    simpa using h
  unfold hplugin_iscompatible sscanf_u_dot_u
  simp only [h1, h2]
  have h3 : ¬ ((decimal_value a : Int) < 0 ∨ (4294967296 : Int) ≤ (decimal_value a : Int)) := by
    omega
  have h4 : ¬ ((decimal_value b : Int) < 0 ∨ (4294967296 : Int) ≤ (decimal_value b : Int)) := by
    omega
  simp only [h3, h4, if_false, Int.toNat_ofNat]
  congr 1
  by_cases hM : decimal_value a = M <;> by_cases hm : decimal_value b ≤ m <;> simp [hM, hm]

/-- Witness of C13: the string `10.07` against the host version 10.7. -/
theorem iscompatible_iff_witness :
    hplugin_iscompatible (10, 7) (some (String.mk (['1', '0'] ++ '.' :: ['0', '7'])))
      = some (decide (decimal_value ['1', '0'] = 10 ∧ decimal_value ['0', '7'] ≤ 7)) :=
  iscompatible_iff.1 10 7 ['1', '0'] ['0', '7'] (by decide) (by decide) (by decide) (by decide)
    (by decide) (by decide)

/-! ## ABI DataCheck registry -/

theorem index_of_nodup_map {α β : Type} (f : α → β) (l : List α) (hnd : (l.map f).Nodup)
    (i j : Nat) (a b : α) (hi : l[i]? = some a) (hj : l[j]? = some b) (hf : f a = f b) :
    i = j := by
  obtain ⟨hi1, hi2⟩ := List.getElem?_eq_some_iff.mp hi
  obtain ⟨hj1, hj2⟩ := List.getElem?_eq_some_iff.mp hj
  have hi3 : i < (l.map f).length := by simpa using hi1
  have hj3 : j < (l.map f).length := by simpa using hj1
  refine (@List.Nodup.getElem_inj_iff _ _ hnd i hi3 j hj3).mp ?_
  simp [hi2, hj2, hf]

theorem datacheck_init_loop_spec (src : List s_HPMDataCheck)
    (hnd : (src.map (fun e => e.name)).Nodup) :
    ∀ (n i : Nat) (db : DBMap), i + n ≤ src.length →
      ∃ db1, datacheck_init_loop src n i db = some db1 ∧
        (∀ j e, i ≤ j → j < i + n → src[j]? = some e → db1 e.name = some j) ∧
        (∀ k, (∀ j e, i ≤ j → j < i + n → src[j]? = some e → e.name ≠ k) → db1 k = db k) := by
  intro n
  induction n with
  | zero =>
    intro i db _
    refine ⟨db, rfl, ?_, fun _ _ => rfl⟩
    intro j e h1 h2
    omega
  | succ n ih =>
    intro i db hi
    have hlt : i < src.length := by omega
    obtain ⟨db1, h1, h2, h3⟩ := ih (i + 1) (strdb_uiput db src[i].name i) (by omega)
    refine ⟨db1, ?_, ?_, ?_⟩
    · rw [datacheck_init_loop, List.getElem?_eq_getElem hlt]
      exact h1
    · intro j e hj1 hj2 hje
      by_cases hji : j = i
      · subst hji
        have he : e = src[j] := by
          rw [List.getElem?_eq_getElem hlt] at hje
          exact (Option.some.inj hje).symm
        subst he
        rw [h3]
        · simp [strdb_uiput]
        · intro j2 e2 hj3 hj4 hje2 hname
          have := index_of_nodup_map (fun e => e.name) src hnd j2 j e2 src[j] hje2
            (List.getElem?_eq_getElem hlt) hname
          omega
      · exact h2 j e (by omega) (by omega) hje
    · intro k hk
      rw [h3 k (fun j e hj1 hj2 hje => hk j e (by omega) (by omega) hje)]
      have hne : src[i].name ≠ k := hk i src[i] (Nat.le_refl i) (by omega)
        (List.getElem?_eq_getElem hlt)
      simp only [strdb_uiput]
      rw [if_neg (fun h => hne h.symm)]

theorem DataCheck_loop_spec (SERVER_TYPE : Nat) (dc : DataCheckState)
    (src : List s_HPMDataCheck)
    (hnd : (dc.datacheck_data.map (fun e => e.name)).Nodup)
    (hdb : ∀ j e, dc.datacheck_data[j]? = some e → dc.datacheck_db e.name = some j)
    (hno : ∀ k, (∀ e ∈ dc.datacheck_data, e.name ≠ k) → dc.datacheck_db k = none) :
    ∀ (n i : Nat), i + n ≤ src.length →
      ∃ b, DataCheck_loop SERVER_TYPE dc src n i = some b ∧
        (b = true ↔ ∀ j e, i ≤ j → j < i + n → src[j]? = some e → e.type &&& SERVER_TYPE ≠ 0 →
          ∃ h ∈ dc.datacheck_data, h.name = e.name ∧ h.size = e.size) := by
  intro n
  induction n with
  | zero =>
    intro i _
    refine ⟨true, rfl, ?_⟩
    simp only [true_iff]
    intro j e h1 h2
    omega
  | succ n ih =>
    intro i hi
    have hlt : i < src.length := by omega
    obtain ⟨b, hb1, hb2⟩ := ih (i + 1) (by omega)
    rw [DataCheck_loop, List.getElem?_eq_getElem hlt]
    by_cases htype : src[i].type &&& SERVER_TYPE = 0
    · refine ⟨b, by simp only [htype, if_true]; exact hb1, ?_⟩
      rw [hb2]
      constructor
      · intro h j e hj1 hj2 hje hty
        by_cases hji : j = i
        · subst hji
          rw [List.getElem?_eq_getElem hlt] at hje
          cases hje
          exact absurd htype hty
        · exact h j e (by omega) (by omega) hje hty
      · intro h j e hj1 hj2 hje hty
        exact h j e (by omega) (by omega) hje hty
    · simp only [htype, if_false]
      cases hex : dc.datacheck_db src[i].name with
      | none =>
        refine ⟨false, by simp [strdb_exists, hex], ?_⟩
        simp only [Bool.false_eq_true, false_iff]
        intro h
        obtain ⟨h0, hmem, hname, _⟩ := h i src[i] (Nat.le_refl i) (by omega)
          (List.getElem?_eq_getElem hlt) htype
        obtain ⟨j, hj⟩ := List.mem_iff_getElem?.mp hmem
        have := hdb j h0 hj
        rw [hname, hex] at this
        cases this
      | some j0 =>
        have hsome : ∃ e ∈ dc.datacheck_data, e.name = src[i].name := by
          by_contra hcon
          have := hno src[i].name (fun e he hn => hcon ⟨e, he, hn⟩)
          rw [hex] at this
          cases this
        obtain ⟨h0, hmem, hname⟩ := hsome
        obtain ⟨j, hj⟩ := List.mem_iff_getElem?.mp hmem
        have hj0 : j0 = j := by
          have := hdb j h0 hj
          rw [hname, hex] at this
          exact Option.some.inj this
        subst hj0
        have huniq : ∀ h1 ∈ dc.datacheck_data, h1.name = src[i].name → h1 = h0 := by
          intro h1 hm1 hn1
          obtain ⟨j1, hj1⟩ := List.mem_iff_getElem?.mp hm1
          have := index_of_nodup_map (fun e => e.name) _ hnd j1 j0 h1 h0 hj1 hj
            (by simp [hn1, hname])
          subst this
          rw [hj] at hj1
          exact (Option.some.inj hj1).symm
        by_cases hsize : src[i].size ≠ h0.size
        · refine ⟨false, by simp [strdb_exists, strdb_uiget, hex, hj, hsize], ?_⟩
          simp only [Bool.false_eq_true, false_iff]
          intro h
          obtain ⟨h1, hm1, hn1, hs1⟩ := h i src[i] (Nat.le_refl i) (by omega)
            (List.getElem?_eq_getElem hlt) htype
          rw [huniq h1 hm1 hn1] at hs1
          exact hsize hs1.symm
        · have hsize2 : src[i].size = h0.size := by
            by_contra hcon
            exact hsize hcon
          refine ⟨b, by simp [strdb_exists, strdb_uiget, hex, hj, hsize2]; exact hb1, ?_⟩
          rw [hb2]
          constructor
          · intro h j e hj1 hj2 hje hty
            by_cases hji : j = i
            · subst hji
              rw [List.getElem?_eq_getElem hlt] at hje
              cases hje
              exact ⟨h0, hmem, hname, hsize2.symm⟩
            · exact h j e (by omega) (by omega) hje hty
          · intro h j e hj1 hj2 hje hty
            exact h j e (by omega) (by omega) hje hty

/-- C14: after the set-up from a host table with pairwise distinct struct
names, the validation of the first `count` entries of a plugin answers true
exactly when the version is the version of the host and every entry whose role
mask meets the role of the running server has a host entry of exactly its name
and of its size; the entries whose role mask does not meet the role play no
part. -/
theorem DataCheck_iff (SERVER_TYPE : Nat) (host : List s_HPMDataCheck) (hostVersion : Int)
    (entries : List s_HPMDataCheck) (count : Nat) (version : Int) (name : String)
    (hnd : (host.map (fun e => e.name)).Nodup) (hcount : count ≤ entries.length) :
    ∃ dc, HPM_datacheck_init host host.length hostVersion = some dc ∧
      ∃ b, HPM_DataCheck SERVER_TYPE dc entries count version name = some b ∧
        (b = true ↔
          (version = hostVersion ∧
            ∀ e ∈ entries.take count, e.type &&& SERVER_TYPE ≠ 0 →
              ∃ h ∈ host, h.name = e.name ∧ h.size = e.size)) := by
  obtain ⟨db, h1, h2, h3⟩ := datacheck_init_loop_spec host hnd host.length 0 strdb_alloc
    (by omega)
  refine ⟨{ datacheck_db := db, datacheck_version := hostVersion, datacheck_data := host },
    by simp only [HPM_datacheck_init, h1], ?_⟩
  by_cases hv : version = hostVersion
  · obtain ⟨b, hb1, hb2⟩ := DataCheck_loop_spec SERVER_TYPE
      { datacheck_db := db, datacheck_version := hostVersion, datacheck_data := host }
      entries hnd
      (by
        intro j e hje
        have hje2 : host[j]? = some e := hje
        exact h2 j e (Nat.zero_le j)
          (by have := (List.getElem?_eq_some_iff.mp hje2).1; omega) hje2)
      (by
        intro k hk
        have hk2 : ∀ e ∈ host, e.name ≠ k := hk
        show db k = none
        rw [h3 k]
        · rfl
        · intro j e _ _ hje
          exact hk2 e (List.getElem?_mem hje))
      count 0 (by omega)
    refine ⟨b, by simp only [HPM_DataCheck, hv, ne_eq, not_true_eq_false, if_false]; exact hb1,
      ?_⟩
    rw [hb2]
    simp only [hv, true_and, Nat.zero_add]
    constructor
    · intro h e he hty
      obtain ⟨j, hj, hje⟩ := List.mem_take_iff_getElem.mp he
      exact h j e (Nat.zero_le j) (by omega) (by
        rw [List.getElem?_eq_getElem (by omega)]
        exact congrArg some hje) hty
    · intro h j e _ hj hje hty
      obtain ⟨hj1, hj2⟩ := List.getElem?_eq_some_iff.mp hje
      exact h e (List.mem_take_iff_getElem.mpr ⟨j, by omega, hj2⟩) hty
  · refine ⟨false, by simp only [HPM_DataCheck, ne_eq, hv, not_false_eq_true, if_true], ?_⟩
    simp [hv]

/-- Witness of C14: the table `ex_plugin_table` passes on a map server (role 4)
set up from `ex_host_table`: its login-only entry names a struct the host does
not have and plays no part. -/
theorem DataCheck_iff_witness :
    ∃ dc, HPM_datacheck_init ex_host_table ex_host_table.length 1 = some dc ∧
      HPM_DataCheck 4 dc ex_plugin_table 3 1 "sample" = some true := by
  obtain ⟨dc, h1, b, h2, h3⟩ := DataCheck_iff 4 ex_host_table 1 ex_plugin_table 3 1 "sample"
    (by decide) (by decide)
  refine ⟨dc, h1, ?_⟩
  rw [h2, h3.mpr (by decide)]

/-! ## Plugin registry: lookup by name and by id, events -/

theorem exists_loop_spec (filename : String) (plugins : List hplugin)
    (hfn : ∀ p ∈ plugins, p.filename ≠ none) :
    ∃ b, exists_loop filename plugins = some b ∧
      (b = true ↔ ∃ p ∈ plugins, ∃ f, p.filename = some f ∧ strcmpi_eq f filename = true) := by
  induction plugins with
  | nil => exact ⟨false, rfl, by simp⟩
  | cons p rest ih =>
    obtain ⟨b, hb1, hb2⟩ := ih (fun q hq => hfn q (List.mem_cons_of_mem _ hq))
    cases hf : p.filename with
    | none => exact absurd hf (hfn p (List.mem_cons_self _ _))
    | some f =>
      by_cases hc : strcmpi_eq f filename = true
      · refine ⟨true, by simp only [exists_loop, hf, hc, if_true], ?_⟩
        simp only [true_iff]
        exact ⟨p, List.mem_cons_self _ _, f, hf, hc⟩
      · refine ⟨b, by simp only [exists_loop, hf, hc, if_false]; exact hb1, ?_⟩
        rw [hb2]
        constructor
        · rintro ⟨q, hq, g, hg1, hg2⟩
          exact ⟨q, List.mem_cons_of_mem _ hq, g, hg1, hg2⟩
        · rintro ⟨q, hq, g, hg1, hg2⟩
          rcases List.mem_cons.mp hq with h | h
          · subst h
            rw [hf] at hg1
            cases hg1
            exact absurd hg2 hc
          · exact ⟨q, h, g, hg1, hg2⟩

theorem id2name_loop_found (pid : Nat) (plugins : List hplugin) (plugin : hplugin)
    (info : hplugin_info) (hf : plugins.find? (fun p => p.idx == pid) = some plugin)
    (hi : plugin.info = some info) : id2name_loop pid plugins = some info.name := by
  induction plugins with
  | nil => simp at hf
  | cons p rest ih =>
    by_cases hp : p.idx = pid
    · simp only [List.find?_cons, hp, beq_self_eq_true] at hf
      cases hf
      simp only [id2name_loop, hp, if_true, hi]
    · have hp2 : (p.idx == pid) = false := by simpa using hp
      simp only [List.find?_cons, hp2] at hf
      simp only [id2name_loop, hp, if_false]
      exact ih hf

theorem id2name_loop_unknown (pid : Nat) (plugins : List hplugin)
    (hno : ∀ p ∈ plugins, p.idx ≠ pid) : id2name_loop pid plugins = some "UnknownPlugin" := by
  induction plugins with
  | nil => rfl
  | cons p rest ih =>
    simp only [id2name_loop, hno p (List.mem_cons_self _ _), if_false]
    exact ih (fun q hq => hno q (List.mem_cons_of_mem _ hq))

theorem trigger_event_loop_spec (type : hp_event_types) (plugins : List hplugin)
    (hhpi : ∀ p ∈ plugins, p.hpi ≠ none) (called : List (Nat × Nat)) :
    trigger_event_loop type plugins called =
      some (called ++ plugins.filterMap (fun p =>
        match p.hpi with
        | some hpi => (hpi.event type).map (fun entry => (p.idx, entry))
        | none => none)) := by
  induction plugins generalizing called with
  | nil => simp [trigger_event_loop]
  | cons p rest ih =>
    have hrest := fun c => ih (fun q hq => hhpi q (List.mem_cons_of_mem _ hq)) c
    cases hh : p.hpi with
    | none => exact absurd hh (hhpi p (List.mem_cons_self _ _))
    | some hpi =>
      cases he : hpi.event type with
      | none =>
        simp only [trigger_event_loop, hh, he, hrest, List.filterMap_cons, Option.map_none']
      | some entry =>
        simp only [trigger_event_loop, hh, he, hrest, List.filterMap_cons, Option.map_some',
          List.append_assoc, List.singleton_append]

/-- C18: the name of an id is `"core"` for the id reserved for the host;
otherwise the declared name of the first registered plugin with this index when
there is one; otherwise `"UnknownPlugin"`. -/
theorem id2name_cases (HPM_PID_CORE : Nat) (st : PluginState) (pid : Nat) :
    (pid = HPM_PID_CORE → hplugins_id2name HPM_PID_CORE st pid = some "core") ∧
    (pid ≠ HPM_PID_CORE → ∀ plugin info,
      st.plugins.find? (fun p => p.idx == pid) = some plugin → plugin.info = some info →
      hplugins_id2name HPM_PID_CORE st pid = some info.name) ∧
    (pid ≠ HPM_PID_CORE → (∀ p ∈ st.plugins, p.idx ≠ pid) →
      hplugins_id2name HPM_PID_CORE st pid = some "UnknownPlugin") := by
  refine ⟨?_, ?_, ?_⟩
  · intro h
    simp only [hplugins_id2name, h, if_true]
  · intro h plugin info hf hi
    simp only [hplugins_id2name, h, if_false]
    exact id2name_loop_found pid st.plugins plugin info hf hi
  · intro h hno
    simp only [hplugins_id2name, h, if_false]
    exact id2name_loop_unknown pid st.plugins hno

/-- Witness of C18: with the reserved id `0xFFFFFFFF` and the two plugins of
`ex_registry2`. -/
theorem id2name_cases_witness :
    hplugins_id2name 4294967295 ex_registry2 4294967295 = some "core" ∧
    hplugins_id2name 4294967295 ex_registry2 1 = some "other" ∧
    hplugins_id2name 4294967295 ex_registry2 2 = some "UnknownPlugin" :=
  ⟨(id2name_cases 4294967295 ex_registry2 4294967295).1 rfl,
    (id2name_cases 4294967295 ex_registry2 1).2.1 (by decide) ex_plugin_other
      { type := 6, name := "other", version := "0.1", req_version := some "1.0" } rfl rfl,
    (id2name_cases 4294967295 ex_registry2 2).2.2 (by decide) (by decide)⟩

/-- C19: the broadcast of an event calls, once each and in the order of the
registry, the entry point for the event of the registered plugins that have
one; the plugins without this entry point are skipped and nothing else is
called. -/
theorem trigger_event_calls (st : PluginState) (type : hp_event_types)
    (hhpi : ∀ p ∈ st.plugins, p.hpi ≠ none) :
    hplugin_trigger_event st type =
      some { st with
        called := st.called ++ st.plugins.filterMap (fun p =>
          match p.hpi with
          | some hpi => (hpi.event type).map (fun entry => (p.idx, entry))
          | none => none) } := by
  simp only [hplugin_trigger_event, trigger_event_loop_spec type st.plugins hhpi st.called]

/-- Witness of C19: the ready event on `ex_registry2` calls the entry point of
the first plugin and then the one of the second; the final event, which no
plugin exports, calls nothing. -/
theorem trigger_event_calls_witness :
    hplugin_trigger_event ex_registry2 hp_event_types.HPET_READY
      = some { ex_registry2 with called := [(0, 9003), (1, 9103)] } ∧
    hplugin_trigger_event ex_registry2 hp_event_types.HPET_FINAL = some ex_registry2 :=
  ⟨trigger_event_calls ex_registry2 hp_event_types.HPET_READY (by decide),
    trigger_event_calls ex_registry2 hp_event_types.HPET_FINAL (by decide)⟩

/-- C20: on a registry whose plugins all have a filename, `hplugin_exists`
answers true exactly when the filename of a registered plugin equals the path
ignoring letter case, and in this case `hplugin_load` returns no plugin and the
state is the one before the call: no record is made and no index is used. -/
theorem load_duplicate (env : HostEnv) (st : PluginState) (path : String)
    (hfn : ∀ p ∈ st.plugins, p.filename ≠ none) :
    (∃ b, hplugin_exists st path = some b ∧
      (b = true ↔
        ∃ p ∈ st.plugins, ∃ f, p.filename = some f ∧ strcmpi_eq f path = true)) ∧
    ((∃ p ∈ st.plugins, ∃ f, p.filename = some f ∧ strcmpi_eq f path = true) →
      hplugin_load env st path = LoadResult.ret none st) := by
  obtain ⟨b, hb1, hb2⟩ := exists_loop_spec path st.plugins hfn
  refine ⟨⟨b, hb1, hb2⟩, ?_⟩
  intro h
  have hb : b = true := hb2.mpr h
  subst hb
  have he : hplugin_exists st path = some true := hb1
  simp only [hplugin_load, he]

/-- Witness of C20: `plugins/sample.so` is loaded; a load of
`PLUGINS/Sample.SO` returns no plugin and leaves the state as it is. -/
theorem load_duplicate_witness :
    hplugin_exists ex_registry1 "PLUGINS/Sample.SO" = some true ∧
    hplugin_exists ex_registry1 "plugins/other.so" = some false ∧
    hplugin_load ex_env ex_registry1 "PLUGINS/Sample.SO" = LoadResult.ret none ex_registry1 :=
  ⟨by decide, by decide,
    (load_duplicate ex_env ex_registry1 "PLUGINS/Sample.SO" (by decide)).2
      ⟨ex_plugin_sample, by decide, "plugins/sample.so", rfl, by decide⟩⟩



theorem ARR_FIND_eq_of_first {α : Type} (cmp : α → Bool) (l : List α) :
    ∀ (i : Nat) (x : α), l[i]? = some x → cmp x = true →
      (∀ j y, j < i → l[j]? = some y → cmp y = false) → ARR_FIND cmp l = i := by
  induction l with
  | nil => intro i x hx; simp at hx
  | cons a t ih =>
    intro i x hx hc hb
    cases i with
    | zero =>
      simp only [List.getElem?_cons_zero, Option.some.injEq] at hx
      subst hx
      simp only [ARR_FIND, hc, if_true]
    | succ k =>
      have ha : cmp a = false := hb 0 a (by omega) (by simp)
      simp only [List.getElem?_cons_succ] at hx
      simp only [ARR_FIND, ha, Bool.false_eq_true, if_false, Nat.add_right_cancel_iff]
      exact ih k x hx hc (fun j y hj hy => hb (j + 1) y (by omega) (by simpa using hy))

/-- On a registry whose plugins have their position as index, the unload of the
plugin at position `k` erases exactly this position. -/
theorem unload_plugins_of_idx (st : PluginState) (plugin : hplugin) (k : Nat)
    (hidx : ∀ (i : Nat) (p : hplugin), st.plugins[i]? = some p → p.idx = i)
    (hk : st.plugins[k]? = some plugin) :
    (hplugin_unload st plugin).plugins = st.plugins.eraseIdx k := by
  have hfind : ARR_FIND (fun p : hplugin => p.idx == plugin.idx) st.plugins = k := by
    apply ARR_FIND_eq_of_first _ _ k plugin hk (by simp)
    intro j y hj hy
    have h1 := hidx j y hy
    have h2 := hidx k plugin hk
    simp only [beq_eq_false_iff_ne, ne_eq]
    omega
  have hlt : k < st.plugins.length := (List.getElem?_eq_some_iff.mp hk).1
  simp only [hplugin_unload, hfind, ne_eq]
  rw [if_pos (by omega)]

theorem eraseIdx_push {α : Type} (l : List α) (x : α) : (l ++ [x]).eraseIdx l.length = l := by
  induction l with
  | nil => rfl
  | cons a t ih => simp [ih]

theorem idx_after_push (plugins : List hplugin) (plugin : hplugin)
    (hidx : ∀ (i : Nat) (p : hplugin), plugins[i]? = some p → p.idx = i)
    (hp : plugin.idx = plugins.length) :
    ∀ (i : Nat) (p : hplugin), (plugins ++ [plugin])[i]? = some p → p.idx = i := by
  intro i p hip
  by_cases hi : i < plugins.length
  · rw [List.getElem?_append_left hi] at hip
    exact hidx i p hip
  · rw [List.getElem?_append_right (by omega)] at hip
    cases hk : i - plugins.length with
    | zero =>
      rw [hk] at hip
      simp only [List.getElem?_cons_zero, Option.some.injEq] at hip
      subst hip
      omega
    | succ k =>
      rw [hk] at hip
      simp at hip

theorem load_ret_cases (env : HostEnv) (st st1 : PluginState) (filename : String)
    (plugin : Option hplugin)
    (hidx : ∀ (i : Nat) (p : hplugin), st.plugins[i]? = some p → p.idx = i)
    (h : hplugin_load env st filename = LoadResult.ret plugin st1) :
    (plugin = none ∧ st1.plugins = st.plugins) ∨
    (∃ p, plugin = some p ∧ st1.plugins = st.plugins ++ [p] ∧ p.idx = st.plugins.length ∧
      p.filename = some filename ∧ p.info ≠ none ∧ p.hpi ≠ none ∧
      hplugin_exists st filename = some false) := by
  unfold hplugin_load at h
  dsimp only at h
  cases hex : hplugin_exists st filename with
  | none =>
    rw [hex] at h
    cases h
  | some b =>
    rw [hex] at h
    cases b with
    | true =>
      cases h
      exact Or.inl ⟨rfl, rfl⟩
    | false =>
      dsimp only at h
      repeat' split at h
      all_goals try (cases h; done)
      · cases h
        left
        refine ⟨rfl, ?_⟩
        rw [unload_plugins_of_idx _ _ st.plugins.length
          (idx_after_push st.plugins _ hidx rfl) (by simp)]
        exact eraseIdx_push _ _
      · cases h
        right
        exact ⟨_, rfl, rfl, rfl, rfl, by simp, by simp, rfl⟩

theorem strcmpi_eq_symm (a b : String) : strcmpi_eq a b = strcmpi_eq b a := by
  unfold strcmpi_eq
  by_cases h : a.data.map tolower = b.data.map tolower
  · simp [h]
  · have h2 : ¬ (b.data.map tolower = a.data.map tolower) := fun e => h e.symm
    simp [h, h2]

/-- The registries reached by loads that return keep the position of each
plugin as its index, give every plugin a filename, its metadata and its
capability table, and have no two filenames equal ignoring case. -/
theorem loaded_invariant (env : HostEnv) (st : PluginState) (hr : Registry_loaded env st) :
    (∀ (i : Nat) (p : hplugin), st.plugins[i]? = some p →
      p.idx = i ∧ p.filename ≠ none ∧ p.info ≠ none ∧ p.hpi ≠ none) ∧
    (∀ (i j : Nat) (p q : hplugin) (f g : String), st.plugins[i]? = some p →
      st.plugins[j]? = some q → p.filename = some f → q.filename = some g →
      strcmpi_eq f g = true → i = j) := by
  induction hr with
  | init st h =>
    rw [h]
    constructor
    · intro i p hp
      simp at hp
    · intro i j p q f g hp
      simp at hp
  | load st st1 filename plugin _ hload ih =>
    obtain ⟨ih1, ih2⟩ := ih
    rcases load_ret_cases env st st1 filename plugin (fun i p hp => (ih1 i p hp).1) hload with
      ⟨_, h2⟩ | ⟨p0, _, h2, h3, h4, h5, h6, h7⟩
    · rw [h2]
      exact ⟨ih1, ih2⟩
    · rw [h2]
      have hfn : ∀ q ∈ st.plugins, q.filename ≠ none := by
        intro q hq
        obtain ⟨i, hi⟩ := List.mem_iff_getElem?.mp hq
        exact (ih1 i q hi).2.1
      obtain ⟨b, hb1, hb2⟩ := exists_loop_spec filename st.plugins hfn
      have hb : b = false := by
        have : hplugin_exists st filename = some b := hb1
        rw [h7] at this
        exact (Option.some.inj this).symm
      have hnone : ¬ ∃ q ∈ st.plugins, ∃ f, q.filename = some f ∧
          strcmpi_eq f filename = true := by
        intro hcon
        have := hb2.mpr hcon
        rw [hb] at this
        cases this
      have hget : ∀ (i : Nat) (p : hplugin), (st.plugins ++ [p0])[i]? = some p →
          (i < st.plugins.length ∧ st.plugins[i]? = some p) ∨
          (i = st.plugins.length ∧ p = p0) := by
        intro i p hip
        by_cases hi : i < st.plugins.length
        · rw [List.getElem?_append_left hi] at hip
          exact Or.inl ⟨hi, hip⟩
        · rw [List.getElem?_append_right (by omega)] at hip
          cases hk : i - st.plugins.length with
          | zero =>
            rw [hk] at hip
            simp only [List.getElem?_cons_zero, Option.some.injEq] at hip
            exact Or.inr ⟨by omega, hip.symm⟩
          | succ k =>
            rw [hk] at hip
            simp at hip
      constructor
      · intro i p hip
        rcases hget i p hip with ⟨_, h⟩ | ⟨hi, hp⟩
        · exact ih1 i p h
        · subst hp
          rw [h4]
          exact ⟨by omega, by simp, h5, h6⟩
      · intro i j p q f g hip hjq hpf hqg hc
        rcases hget i p hip with ⟨hi1, hi2⟩ | ⟨hi1, hi2⟩
        · rcases hget j q hjq with ⟨hj1, hj2⟩ | ⟨hj1, hj2⟩
          · exact ih2 i j p q f g hi2 hj2 hpf hqg hc
          · subst hj2
            rw [h4] at hqg
            cases hqg
            exact absurd ⟨p, List.getElem?_mem hi2, f, hpf, hc⟩ hnone
        · rcases hget j q hjq with ⟨hj1, hj2⟩ | ⟨hj1, hj2⟩
          · subst hi2
            rw [h4] at hpf
            cases hpf
            rw [strcmpi_eq_symm] at hc
            exact absurd ⟨q, List.getElem?_mem hj2, g, hqg, hc⟩ hnone
          · omega

/-- The registries reached by creates and by unloads of the last plugin keep
the position of each plugin as its index. -/
theorem stacked_idx (st : PluginState) (hr : Registry_stacked st) :
    ∀ (i : Nat) (p : hplugin), st.plugins[i]? = some p → p.idx = i := by
  induction hr with
  | init st h =>
    intro i p hp
    rw [h] at hp
    simp at hp
  | create st _ ih =>
    exact idx_after_push st.plugins _ ih rfl
  | unload_last st plugin _ hlast ih =>
    have hk : st.plugins[st.plugins.length - 1]? = some plugin := by
      rw [← List.getLast?_eq_getElem?]
      exact hlast
    rw [unload_plugins_of_idx st plugin (st.plugins.length - 1) ih hk]
    intro i p hp
    rw [List.getElem?_eraseIdx] at hp
    split at hp
    · exact ih i p hp
    · have hlen := (List.getElem?_eq_some_iff.mp hp).1
      omega

/-! ## Plugin registry: indices -/

/-- C16, on the code: after create, create, unload of the first plugin and one
more create on an empty registry, the two registered plugins both have the
index 1, and the index 1 was assigned by two creates. -/
theorem registry_index_reuse :
    ((registry_run
        [RegistryOp.create, RegistryOp.create, RegistryOp.unload 0, RegistryOp.create]
        ex_registry0 []).1.plugins.map (fun p => p.idx)) = [1, 1] ∧
    (registry_run
        [RegistryOp.create, RegistryOp.create, RegistryOp.unload 0, RegistryOp.create]
        ex_registry0 []).2 = [0, 1, 1] ∧
    ¬ ((registry_run
        [RegistryOp.create, RegistryOp.create, RegistryOp.unload 0, RegistryOp.create]
        ex_registry0 []).1.plugins.map (fun p => p.idx)).Nodup ∧
    ¬ (registry_run
        [RegistryOp.create, RegistryOp.create, RegistryOp.unload 0, RegistryOp.create]
        ex_registry0 []).2.Nodup := by
  decide

/-- C16, amended: in every state reached from an empty registry by creates and
by unloads of the plugin registered last, the plugin at position `i` has the
index `i`, so the indices of the registered plugins are pairwise distinct; a
create assigns the number of registered plugins as index, so that the index of
an unloaded last plugin is the one the next create assigns. -/
theorem registry_stacked_indices (st : PluginState) (hr : Registry_stacked st) :
    st.plugins.map (fun p => p.idx) = List.range st.plugins.length ∧
    (st.plugins.map (fun p => p.idx)).Nodup ∧
    (hplugin_create st).1.idx = st.plugins.length ∧
    (∀ plugin, st.plugins.getLast? = some plugin →
      (hplugin_create (hplugin_unload st plugin)).1.idx = plugin.idx) := by
  have hidx := stacked_idx st hr
  have hmap : st.plugins.map (fun p => p.idx) = List.range st.plugins.length := by
    apply List.ext_getElem?
    intro i
    rw [List.getElem?_map]
    by_cases hi : i < st.plugins.length
    · rw [List.getElem?_eq_getElem hi, List.getElem?_range hi]
      simp only [Option.map_some', Option.some.injEq]
      exact hidx i _ (List.getElem?_eq_getElem hi)
    · rw [List.getElem?_eq_none (by omega), List.getElem?_eq_none (by simp; omega)]
      rfl
  refine ⟨hmap, ?_, rfl, ?_⟩
  · rw [hmap]
    exact List.nodup_range _
  · intro plugin hlast
    have hk : st.plugins[st.plugins.length - 1]? = some plugin := by
      rw [← List.getLast?_eq_getElem?]
      exact hlast
    have hlt := (List.getElem?_eq_some_iff.mp hk).1
    have h1 := hidx _ plugin hk
    simp only [hplugin_create]
    rw [unload_plugins_of_idx st plugin (st.plugins.length - 1) hidx hk,
      List.length_eraseIdx_of_lt hlt]
    omega

/-- Witness of C16, amended: the registry after create, create, unload of the
second plugin and create. -/
theorem registry_stacked_indices_witness :
    (hplugin_create (hplugin_unload (hplugin_create (hplugin_create ex_registry0).2).2
      (hplugin_create (hplugin_create ex_registry0).2).1)).2.plugins.map (fun p => p.idx)
      = List.range 2 :=
  (registry_stacked_indices _
    (Registry_stacked.create _
      (Registry_stacked.unload_last _ (hplugin_create (hplugin_create ex_registry0).2).1
        (Registry_stacked.create _
          (Registry_stacked.create _ (Registry_stacked.init ex_registry0 rfl)))
        rfl))).1

/-- A registry reached by loads that return is one of the registries reached
by loads that return and by unloads of the last plugin. -/
theorem loaded_reached (env : HostEnv) (st : PluginState) (hr : Registry_loaded env st) :
    Registry_reached env st := by
  induction hr with
  | init st h => exact Registry_reached.init st h
  | load st st1 filename plugin _ hload ih =>
    exact Registry_reached.load st st1 filename plugin ih hload

/-! ## Plugin registry: unload -/

/-- C21: the registration of a hook returns true exactly when hooking is
enabled, a resolver is installed and the resolver answers true for the four
arguments; when hooking is not enabled it returns false and the state, with the
log of the calls of the resolver, is the one before the call. -/
theorem AddHook_true_iff (st : HookState) (type : Nat) (target : String) (hook pID : Nat) :
    ((HPM_AddHook st type target hook pID).1 = true ↔
      (st.hooking = true ∧
        ∃ addhook_sub, st.addhook_sub = some addhook_sub ∧
          addhook_sub type target hook pID = true)) ∧
    (st.hooking = false → HPM_AddHook st type target hook pID = (false, st)) := by
  constructor
  · unfold HPM_AddHook
    cases hh : st.hooking with
    | false => simp
    | true =>
      cases hs : st.addhook_sub with
      | none => simp
      | some addhook_sub =>
        cases hr : addhook_sub type target hook pID <;> simp [hr]
  · intro h
    simp [HPM_AddHook, h]

/-- Witness of C21: the resolver of `ex_hpm` knows the target `clif->pc_load`
and no other; without hooking the same call is refused without a call of the
resolver. -/
theorem AddHook_true_iff_witness :
    (HPM_AddHook ex_hpm.hook 0 "clif->pc_load" 4000 0).1 = true ∧
    (HPM_AddHook ex_hpm.hook 0 "clif->unknown" 4000 0).1 = false ∧
    HPM_AddHook { ex_hpm.hook with hooking := false } 0 "clif->pc_load" 4000 0
      = (false, { ex_hpm.hook with hooking := false }) :=
  ⟨(AddHook_true_iff ex_hpm.hook 0 "clif->pc_load" 4000 0).1.mpr ⟨rfl, _, rfl, by decide⟩,
    by decide,
    (AddHook_true_iff { ex_hpm.hook with hooking := false } 0 "clif->pc_load" 4000 0).2 rfl⟩

theorem HPM_do_force_return (hpPHP_MAX HPCT_MAX HPM_ADDCONF_LENGTH : Nat)
    (st st1 : HPM_interface) (call : HPM_call)
    (h : HPM_do hpPHP_MAX HPCT_MAX HPM_ADDCONF_LENGTH st call = some st1)
    (hflag : st.hook.force_return = true) : st1.hook.force_return = true := by
  cases call with
  | AddHook type target hook pID =>
    simp only [HPM_do, Option.some.injEq] at h
    subst h
    simp only [HPM_AddHook]
    split
    · exact hflag
    · split
      · exact hflag
      · split <;> exact hflag
  | HookStop func pID =>
    simp only [HPM_do, Option.some.injEq] at h
    subst h
    rfl
  | HookStopped =>
    simp only [HPM_do, Option.some.injEq] at h
    subst h
    exact hflag
  | addPacket cmd length receive point pluginID =>
    simp only [HPM_do, Option.some.injEq] at h
    subst h
    exact hflag
  | parse_packets fd point =>
    simp only [HPM_do] at h
    split at h
    · cases h
      exact hflag
    · cases h
  | addToHPData type pluginID ptr data index autofree =>
    simp only [HPM_do] at h
    split at h
    · cases h
      exact hflag
    · cases h
  | getFromHPData type pluginID ptr index =>
    simp only [HPM_do] at h
    split at h
    · cases h
      exact hflag
    · cases h
  | removeFromHPData type pluginID ptr index =>
    simp only [HPM_do] at h
    split at h
    · cases h
      exact hflag
    · cases h
  | addConf pluginID type name func =>
    simp only [HPM_do, Option.some.injEq] at h
    subst h
    exact hflag
  | parseConf w1 w2 point =>
    simp only [HPM_do] at h
    split at h
    · cases h
      exact hflag
    · cases h
  | share value name =>
    simp only [HPM_do, Option.some.injEq] at h
    subst h
    exact hflag
  | import_symbol name pID =>
    simp only [HPM_do, Option.some.injEq] at h
    subst h
    exact hflag
  | create =>
    simp only [HPM_do, Option.some.injEq] at h
    subst h
    exact hflag
  | unload plugin =>
    simp only [HPM_do, Option.some.injEq] at h
    subst h
    exact hflag
  | event type =>
    simp only [HPM_do] at h
    split at h
    · cases h
      exact hflag
    · cases h

theorem HPM_run_force_return (hpPHP_MAX HPCT_MAX HPM_ADDCONF_LENGTH : Nat)
    (calls : List HPM_call) :
    ∀ (st st1 : HPM_interface),
      HPM_run hpPHP_MAX HPCT_MAX HPM_ADDCONF_LENGTH calls st = some st1 →
      st.hook.force_return = true → st1.hook.force_return = true := by
  induction calls with
  | nil =>
    intro st st1 h hflag
    simp only [HPM_run, Option.some.injEq] at h
    subst h
    exact hflag
  | cons call calls ih =>
    intro st st1 h hflag
    simp only [HPM_run] at h
    cases hd : HPM_do hpPHP_MAX HPCT_MAX HPM_ADDCONF_LENGTH st call with
    | none =>
      rw [hd] at h
      cases h
    | some st2 =>
      rw [hd] at h
      exact ih st2 st1 h (HPM_do_force_return _ _ _ st st2 call hd hflag)

/-- C22: after `HPM_HookStop`, `HPM_HookStopped` answers true, and it still
answers true after any further sequence of registry operations (the hook, packet,
extension data, config, symbol and plugin operations and the event broadcast):
none of them writes the flag. -/
theorem HookStopped_persists (hpPHP_MAX HPCT_MAX HPM_ADDCONF_LENGTH : Nat)
    (st st1 : HPM_interface) (func : String) (pID : Nat) (calls : List HPM_call)
    (h : HPM_run hpPHP_MAX HPCT_MAX HPM_ADDCONF_LENGTH calls
      { st with hook := HPM_HookStop st.hook func pID } = some st1) :
    HPM_HookStopped (HPM_HookStop st.hook func pID) = true ∧
    HPM_HookStopped st1.hook = true :=
  ⟨rfl, HPM_run_force_return hpPHP_MAX HPCT_MAX HPM_ADDCONF_LENGTH calls _ st1 h rfl⟩

/-- Witness of C22: the sequence `ex_calls`, which goes through every registry
operation, runs to its end on `ex_hpm` after a stop, and the flag is still
set. -/
theorem HookStopped_persists_witness :
    (HPM_run 7 7 40 ex_calls { ex_hpm with hook := HPM_HookStop ex_hpm.hook "pc_load" 1 }).isSome
      = true ∧
    ∀ st1, HPM_run 7 7 40 ex_calls { ex_hpm with hook := HPM_HookStop ex_hpm.hook "pc_load" 1 }
      = some st1 → HPM_HookStopped st1.hook = true :=
  ⟨by decide, fun st1 h => (HookStopped_persists 7 7 40 ex_hpm st1 "pc_load" 1 ex_calls h).2⟩

/-! ## Config listener registry -/

theorem strcmpi_eq_iff (a b : String) :
    strcmpi_eq a b = true ↔ a.data.map tolower = b.data.map tolower := by
  simp [strcmpi_eq]

theorem safestrncpy_of_short (name : String) (n : Nat) (h : name.length < n) :
    safestrncpy name n = name := by
  unfold safestrncpy
  have h1 : name.data.take (n - 1) = name.data :=
    List.take_of_length_le (by
      have : name.data.length = name.length := rfl
      omega)
  rw [h1]

theorem parse_conf_miss (HPCT_MAX : Nat) (st : ConfState) (w1 w2 : String) (point : Nat)
    (hpoint : point < HPCT_MAX)
    (hno : ∀ conf ∈ st.confs point, strcmpi_eq w1 conf.key = false) :
    hplugins_parse_conf HPCT_MAX st w1 w2 point = some (false, st) := by
  unfold hplugins_parse_conf
  rw [if_neg (by omega)]
  simp only [(ARR_FIND_eq_length _ _).mpr hno, ne_eq, not_true_eq_false, if_false]

/-- C23, on the code: the key `custom_battle_experience_rate_for_plugin` has 40
characters and the stored key keeps 39 of them (`HPM_ADDCONF_LENGTH` is 40); the
registration returns true, and the dispatch of the very same key returns false
and calls no callback. -/
theorem parse_conf_long_key :
    (hplugins_addconf 7 40 { confs := fun _ => [], conf_called := [] } 1 0
      "custom_battle_experience_rate_for_plugin" 500).1 = true ∧
    ((hplugins_addconf 7 40 { confs := fun _ => [], conf_called := [] } 1 0
      "custom_battle_experience_rate_for_plugin" 500).2.confs 0).map (fun conf => conf.key)
      = ["custom_battle_experience_rate_for_plugi"] ∧
    (hplugins_parse_conf 7
      (hplugins_addconf 7 40 { confs := fun _ => [], conf_called := [] } 1 0
        "custom_battle_experience_rate_for_plugin" 500).2
      "custom_battle_experience_rate_for_plugin" "5" 0).map (fun result => result.1)
      = some false ∧
    (hplugins_parse_conf 7
      (hplugins_addconf 7 40 { confs := fun _ => [], conf_called := [] } 1 0
        "custom_battle_experience_rate_for_plugin" 500).2
      "custom_battle_experience_rate_for_plugin" "5" 0).map (fun result => result.2.conf_called)
      = some [] := by
  decide

/-- For a known category and a key shorter than `HPM_ADDCONF_LENGTH`, which
is stored whole: once the registration has returned true, the dispatch of any
key equal to it ignoring case calls its callback with the value and returns
true; and a dispatch returns false and calls nothing when no stored key of the
category equals the dispatched key ignoring case. -/
theorem addconf_then_parse_conf (HPCT_MAX HPM_ADDCONF_LENGTH : Nat) (st : ConfState)
    (pluginID type : Nat) (name : String) (func : Nat) (key2 value : String)
    (hlen : name.length < HPM_ADDCONF_LENGTH)
    (hadd : (hplugins_addconf HPCT_MAX HPM_ADDCONF_LENGTH st pluginID type name func).1 = true)
    (hkey : strcmpi_eq key2 name = true) :
    hplugins_parse_conf HPCT_MAX
        (hplugins_addconf HPCT_MAX HPM_ADDCONF_LENGTH st pluginID type name func).2
        key2 value type
      = some (true,
          { (hplugins_addconf HPCT_MAX HPM_ADDCONF_LENGTH st pluginID type name func).2 with
            conf_called := st.conf_called ++ [(func, value)] }) ∧
    (∀ (st2 : ConfState) (w1 w2 : String) (point : Nat), point < HPCT_MAX →
      (∀ conf ∈ st2.confs point, strcmpi_eq w1 conf.key = false) →
      hplugins_parse_conf HPCT_MAX st2 w1 w2 point = some (false, st2)) := by
  unfold hplugins_addconf at hadd ⊢
  by_cases h1 : type ≥ HPCT_MAX
  · rw [if_pos h1] at hadd
    cases hadd
  · by_cases h2 : (st.confs type).any (fun conf => strcmpi_eq name conf.key) = true
    · rw [if_neg h1, if_pos h2] at hadd
      cases hadd
    · refine ⟨?_, fun st2 w1 w2 point hpoint hno =>
        parse_conf_miss HPCT_MAX st2 w1 w2 point hpoint hno⟩
      rw [if_neg h1, if_neg h2, safestrncpy_of_short name _ hlen]
      have hold : ∀ conf ∈ st.confs type, strcmpi_eq key2 conf.key = false := by
        intro conf hc
        rw [Bool.eq_false_iff]
        intro hm
        apply h2
        rw [List.any_eq_true]
        refine ⟨conf, hc, ?_⟩
        rw [strcmpi_eq_iff] at hm hkey ⊢
        rw [← hkey]
        exact hm
      have hfind : (st.confs type ++ [({ pluginID := pluginID, key := name, func := func } :
          HPConfListenStorage)]).find? (fun conf => strcmpi_eq key2 conf.key)
          = some { pluginID := pluginID, key := name, func := func } := by
        rw [List.find?_append]
        have : (st.confs type).find? (fun conf => strcmpi_eq key2 conf.key) = none := by
          rw [List.find?_eq_none]
          intro conf hc
          simp [hold conf hc]
        rw [this]
        simp [List.find?, hkey]
      obtain ⟨k1, k2⟩ := ARR_FIND_find _ _ _ hfind
      unfold hplugins_parse_conf
      rw [if_neg h1]
      simp only [if_true, ne_eq, k1, not_false_eq_true, k2]

/-- The key `my_rate` is registered and `MY_RATE` is dispatched to its
callback. -/
theorem addconf_then_parse_conf_witness :
    hplugins_parse_conf 7
        (hplugins_addconf 7 40 { confs := fun _ => [], conf_called := [] } 1 0 "my_rate" 500).2
        "MY_RATE" "5" 0
      = some (true,
          { (hplugins_addconf 7 40 { confs := fun _ => [], conf_called := [] } 1 0
              "my_rate" 500).2 with
            conf_called := [] ++ [(500, "5")] }) :=
  (addconf_then_parse_conf 7 40 { confs := fun _ => [], conf_called := [] } 1 0 "my_rate" 500
    "MY_RATE" "5" (by decide) (by decide) (by decide)).1

/-- The registration of a listener is refused, and the registry is left as it
is, for an unknown category and for a key that equals a stored key of the
category ignoring case. -/
theorem addconf_rejects (HPCT_MAX HPM_ADDCONF_LENGTH : Nat) (st : ConfState)
    (pluginID type : Nat) (name : String) (func : Nat)
    (h : type ≥ HPCT_MAX ∨ ∃ conf ∈ st.confs type, strcmpi_eq name conf.key = true) :
    hplugins_addconf HPCT_MAX HPM_ADDCONF_LENGTH st pluginID type name func = (false, st) := by
  unfold hplugins_addconf
  rcases h with h | ⟨conf, hc, hm⟩
  · rw [if_pos h]
  · by_cases h1 : type ≥ HPCT_MAX
    · rw [if_pos h1]
    · rw [if_neg h1, if_pos (List.any_eq_true.mpr ⟨conf, hc, hm⟩)]

/-- C24, on the code: two keys of 43 characters that differ in the last one
only are both accepted in category 0 (`HPM_ADDCONF_LENGTH` is 40), and the two
listeners have the same stored key; the first key itself is accepted a second
time. -/
theorem addconf_long_keys_collide :
    (hplugins_addconf 7 40 { confs := fun _ => [], conf_called := [] } 1 0
      "custom_battle_experience_rate_for_plugins_a" 500).1 = true ∧
    (hplugins_addconf 7 40
      (hplugins_addconf 7 40 { confs := fun _ => [], conf_called := [] } 1 0
        "custom_battle_experience_rate_for_plugins_a" 500).2
      3 0 "custom_battle_experience_rate_for_plugins_a" 700).1 = true ∧
    (hplugins_addconf 7 40
      (hplugins_addconf 7 40 { confs := fun _ => [], conf_called := [] } 1 0
        "custom_battle_experience_rate_for_plugins_a" 500).2
      2 0 "custom_battle_experience_rate_for_plugins_b" 600).1 = true ∧
    ((confs_after 7 40
        [(1, 0, "custom_battle_experience_rate_for_plugins_a", 500),
         (2, 0, "custom_battle_experience_rate_for_plugins_b", 600)]).confs 0)
      = [{ pluginID := 1, key := "custom_battle_experience_rate_for_plugi", func := 500 },
         { pluginID := 2, key := "custom_battle_experience_rate_for_plugi", func := 600 }] := by
  decide

/-- With keys shorter than `HPM_ADDCONF_LENGTH` only, no two listeners of a
category have stored keys that are equal ignoring case. -/
theorem confs_after_unique_of_short (HPCT_MAX HPM_ADDCONF_LENGTH : Nat)
    (calls : List (Nat × Nat × String × Nat))
    (hshort : ∀ call ∈ calls, call.2.2.1.length < HPM_ADDCONF_LENGTH) (type : Nat) :
    ((confs_after HPCT_MAX HPM_ADDCONF_LENGTH calls).confs type).Pairwise
      (fun a b => strcmpi_eq a.key b.key = false) := by
  have hgen : ∀ (calls : List (Nat × Nat × String × Nat)) (st : ConfState),
      (∀ call ∈ calls, call.2.2.1.length < HPM_ADDCONF_LENGTH) →
      (∀ type, (st.confs type).Pairwise (fun a b => strcmpi_eq a.key b.key = false)) →
      ∀ type, ((calls.foldl
        (fun st call =>
          (hplugins_addconf HPCT_MAX HPM_ADDCONF_LENGTH st call.1 call.2.1 call.2.2.1
            call.2.2.2).2) st).confs type).Pairwise
        (fun a b => strcmpi_eq a.key b.key = false) := by
    intro calls
    induction calls with
    | nil =>
      intro st _ hst type
      exact hst type
    | cons call rest ih =>
      intro st hs hst
      rw [List.foldl_cons]
      apply ih _ (fun c hc => hs c (List.mem_cons_of_mem _ hc))
      intro type
      unfold hplugins_addconf
      by_cases h1 : call.2.1 ≥ HPCT_MAX
      · rw [if_pos h1]
        exact hst type
      · rw [if_neg h1]
        by_cases h2 : (st.confs call.2.1).any (fun conf => strcmpi_eq call.2.2.1 conf.key)
            = true
        · rw [if_pos h2]
          exact hst type
        · rw [if_neg h2]
          simp only
          by_cases ht : type = call.2.1
          · subst ht
            rw [if_pos rfl, safestrncpy_of_short _ _ (hs call (List.mem_cons_self _ _)),
              List.pairwise_append]
            refine ⟨hst _, List.pairwise_singleton _ _, ?_⟩
            intro a ha b hb
            simp only [List.mem_singleton] at hb
            subst hb
            rw [Bool.eq_false_iff]
            intro hm
            apply h2
            rw [List.any_eq_true]
            refine ⟨a, ha, ?_⟩
            rw [strcmpi_eq_symm]
            exact hm
          · rw [if_neg ht]
            exact hst type
  exact hgen calls _ hshort (fun _ => List.Pairwise.nil) type

/-! ## Command-line extension -/

theorem dashes_prefix_iff (l : List Char) :
    (l[0]? ≠ some '-' ∨ l[1]? ≠ some '-') ↔ ¬ (['-', '-'] <+: l) := by
  cases l with
  | nil => simp
  | cons a t =>
    cases t with
    | nil => simp
    | cons b u =>
      simp only [List.getElem?_cons_zero, List.getElem?_cons_succ, ne_eq, Option.some.injEq,
        List.cons_prefix_cons, List.nil_prefix, and_true]
      constructor
      · rintro (h | h) ⟨h1, h2⟩
        · exact h h1.symm
        · exact h h2.symm
      · intro h
        by_cases ha : a = '-'
        · right
          intro hb
          exact h ⟨ha.symm, hb.symm⟩
        · left
          exact ha

/-- C25: the registration of a command-line argument returns false and
registers nothing when the name is absent, has fewer than 3 characters, does not
begin with `--`, or is the name of a registered argument; in every other case it
returns what `arg_add` of the command-line subsystem returns for the name, with
the parameter option when `has_param` is true and the normal option when it is
not. -/
theorem add_arg_cases (cmdline : cmdline_interface) (args_data : List CmdlineArgData)
    (pluginID : Nat) (name : Option String) (has_param : Bool) (func : Nat)
    (help : Option String) :
    (name = none →
      hpm_add_arg cmdline args_data pluginID name has_param func help = (false, args_data)) ∧
    (∀ n, name = some n →
      (n.length < 3 ∨ ¬ (['-', '-'] <+: n.data) ∨ ∃ arg ∈ args_data, arg.name = n) →
      hpm_add_arg cmdline args_data pluginID name has_param func help = (false, args_data)) ∧
    (∀ n, name = some n → 3 ≤ n.length → ['-', '-'] <+: n.data →
      (∀ arg ∈ args_data, arg.name ≠ n) →
      hpm_add_arg cmdline args_data pluginID name has_param func help =
        cmdline.arg_add args_data
          { pluginID := pluginID
            name := n
            shortname := 0
            func := func
            help := help
            options :=
              if has_param then cmdline.CMDLINE_OPT_PARAM else cmdline.CMDLINE_OPT_NORMAL }) := by
  refine ⟨?_, ?_, ?_⟩
  · intro h
    subst h
    rfl
  · intro n h hbad
    subst h
    unfold hpm_add_arg
    simp only
    by_cases hform : n.length < 3 ∨ n.data[0]? ≠ some '-' ∨ n.data[1]? ≠ some '-'
    · rw [if_pos hform]
    · rw [if_neg hform]
      rcases hbad with h1 | h2 | ⟨arg, harg, hname⟩
      · exact absurd (Or.inl h1) hform
      · exact absurd (Or.inr ((dashes_prefix_iff n.data).mpr h2)) hform
      · have hne : ARR_FIND (fun arg : CmdlineArgData => arg.name == n) args_data
            ≠ args_data.length := by
          intro heq
          have := (ARR_FIND_eq_length _ _).mp heq arg harg
          simp [hname] at this
        have hle := ARR_FIND_le (fun arg : CmdlineArgData => arg.name == n) args_data
        rw [if_pos (by omega)]
  · intro n h hlen hpre hfree
    subst h
    unfold hpm_add_arg
    simp only
    have hform : ¬ (n.length < 3 ∨ n.data[0]? ≠ some '-' ∨ n.data[1]? ≠ some '-') := by
      intro hf
      rcases hf with h1 | h2
      · omega
      · exact (dashes_prefix_iff n.data).mp h2 hpre
    have heq : ARR_FIND (fun arg : CmdlineArgData => arg.name == n) args_data
        = args_data.length := by
      rw [ARR_FIND_eq_length]
      intro arg harg
      simpa using hfree arg harg
    rw [if_neg hform, heq, if_neg (by omega)]

/-- Witness of C25: `--debug` with a parameter goes to `arg_add`; `--help` is
registered, `-d` is too short and `debug` has no `--`. -/
theorem add_arg_cases_witness :
    hpm_add_arg ex_cmdline ex_args 1 (some "--debug") true 700 none =
      (true, ex_args ++ [⟨1, "--debug", 0, 700, none, 1⟩]) ∧
    hpm_add_arg ex_cmdline ex_args 1 (some "--help") true 700 none = (false, ex_args) ∧
    hpm_add_arg ex_cmdline ex_args 1 (some "-d") true 700 none = (false, ex_args) ∧
    hpm_add_arg ex_cmdline ex_args 1 (some "debug") true 700 none = (false, ex_args) ∧
    hpm_add_arg ex_cmdline ex_args 1 none true 700 none = (false, ex_args) :=
  ⟨(add_arg_cases ex_cmdline ex_args 1 (some "--debug") true 700 none).2.2 "--debug" rfl
      (by decide) (by decide) (by decide),
    (add_arg_cases ex_cmdline ex_args 1 (some "--help") true 700 none).2.1 "--help" rfl
      (Or.inr (Or.inr (by decide))),
    (add_arg_cases ex_cmdline ex_args 1 (some "-d") true 700 none).2.1 "-d" rfl
      (Or.inl (by decide)),
    (add_arg_cases ex_cmdline ex_args 1 (some "debug") true 700 none).2.1 "debug" rfl
      (Or.inr (Or.inl (by decide))),
    (add_arg_cases ex_cmdline ex_args 1 none true 700 none).1 rfl⟩

/-! ## Configuration-driven load -/

/-- The buffer counts bytes: `é` has two bytes, so a buffer of 8 bytes ends
inside the fourth `é` of a text and a buffer of 7 bytes keeps three of them;
the filename of a module with a name of thirty `é` does not fit the 60 bytes
and is cut inside a character, and with one more letter in front it is cut
after the twenty-fifth. -/
theorem snprintf_bytes_example :
    snprintf 8 "ééééé" = none ∧
    snprintf 7 "ééééé" = some "ééé" ∧
    snprintf 60 ("plugins/" ++ "éééééééééééééééééééééééééééééé" ++ ".so") = none ∧
    snprintf 60 ("plugins/" ++ "aéééééééééééééééééééééééééééééé" ++ ".so")
      = some "plugins/aééééééééééééééééééééééééé" := by
  refine ⟨by decide, by decide, by decide, by decide⟩

/-- A run of `hplugins_config_read` on a map server: the hooking module is
asked for first although the entry that names it comes second, the entry
`HPMHooking_char` is asked for by neither loop, the module for the login
server is asked for and not registered, and after the run hooking is enabled
with the resolver of the module.  On a host without the file of the hooking
module the first load ends the process and nothing else is asked for. -/
theorem config_read_example :
    (hplugins_config_read ex_env_hooking ".so" ex_hpm0
        (some (some ["sample", "hpmhooking", "HPMHooking_char", "login"])) ["other"]).requested
      = [some "plugins/HPMHooking_map.so", some "plugins/sample.so", some "plugins/login.so",
          some "plugins/other.so"] ∧
    (match (hplugins_config_read ex_env_hooking ".so" ex_hpm0
        (some (some ["sample", "hpmhooking", "HPMHooking_char", "login"])) ["other"]).outcome with
      | ConfigOutcome.ret st1 =>
        st1.hook.hooking && st1.registry.plugins.length == 3
          && (HPM_AddHook st1.hook 0 "clif->pc_load" 4000 0).1
      | _ => false) = true ∧
    (hplugins_config_read ex_env ".so" ex_hpm0
        (some (some ["sample", "hpmhooking", "HPMHooking_char", "login"])) ["other"]).requested
      = [some "plugins/HPMHooking_map.so"] ∧
    (match (hplugins_config_read ex_env ".so" ex_hpm0
        (some (some ["sample", "hpmhooking", "HPMHooking_char", "login"])) ["other"]).outcome with
      | ConfigOutcome.exit => true
      | _ => false) = true := by
  refine ⟨by rfl, by rfl, by rfl, by rfl⟩

/-! ## Plugin registry: a module for another server role -/

/-- C27: in a registry reached by loads that return, the load of a file that
opens as a module whose role mask has no bit of the role of the running server
returns without a plugin (it neither ends the process nor is undefined), and
the registry after it has the plugins it had before, in the same order and with
the same indices: nothing but the log of closed handles may differ.  The next
record that `hplugin_create` makes gets the index that the record of the
rejected module had, the length of the vector, and no registered plugin has
that index. -/
theorem load_role_mismatch (env : HostEnv) (st : PluginState) (filename : String)
    (m : PluginModule) (info : hplugin_info)
    (hr : Registry_loaded env st)
    (hopen : env.plugin_open filename = some m)
    (hinfo : m.pinfo = some info)
    (hrole : info.type &&& env.SERVER_TYPE = 0) :
    ∃ st1, hplugin_load env st filename = LoadResult.ret none st1 ∧
      (st1 = st ∨ st1 = { st with closed := st.closed ++ [m.dll] }) ∧
      st1.plugins = st.plugins ∧
      (hplugin_create st1).1.idx = (hplugin_create st).1.idx ∧
      (hplugin_create st1).1.idx = st.plugins.length ∧
      (∀ p ∈ st1.plugins, p.idx ≠ (hplugin_create st1).1.idx) ∧
      (∀ (i : Nat) (p : hplugin), st1.plugins[i]? = some p → p.idx = i) := by
  have hinv := (loaded_invariant env st hr).1
  have hidx : ∀ (i : Nat) (p : hplugin), st.plugins[i]? = some p → p.idx = i :=
    fun i p hp => (hinv i p hp).1
  have hfresh : ∀ p ∈ st.plugins, p.idx ≠ st.plugins.length := by
    intro p hp
    obtain ⟨i, hi, hget⟩ := List.getElem_of_mem hp
    have h1 := hidx i p (by rw [List.getElem?_eq_getElem hi, hget])
    omega
  have hfn : ∀ p ∈ st.plugins, p.filename ≠ none := by
    intro p hp
    obtain ⟨i, hi, hget⟩ := List.getElem_of_mem hp
    exact (hinv i p (by rw [List.getElem?_eq_getElem hi, hget])).2.1
  obtain ⟨b, hb, _⟩ := exists_loop_spec filename st.plugins hfn
  cases b with
  | true =>
    refine ⟨st, ?_, Or.inl rfl, rfl, rfl, rfl, hfresh, hidx⟩
    simp only [hplugin_load, hplugin_exists, hb]
  | false =>
    have hpush : ∀ (i : Nat) (p : hplugin),
        (st.plugins ++ [({ (hplugin_create st).1 with dll := some m.dll } : hplugin)])[i]?
          = some p → p.idx = i :=
      idx_after_push st.plugins _ hidx rfl
    have hk : (st.plugins ++ [({ (hplugin_create st).1 with dll := some m.dll } : hplugin)])[
        st.plugins.length]? = some { (hplugin_create st).1 with dll := some m.dll } := by
      simp
    have hun := unload_plugins_of_idx
      { st with plugins := st.plugins ++ [{ (hplugin_create st).1 with dll := some m.dll }] }
      { (hplugin_create st).1 with dll := some m.dll } st.plugins.length hpush hk
    simp only [eraseIdx_push] at hun
    have hload : hplugin_load env st filename = LoadResult.ret none
        (hplugin_unload
          { st with plugins := st.plugins ++ [{ (hplugin_create st).1 with dll := some m.dll }] }
          { (hplugin_create st).1 with dll := some m.dll }) := by
      simp only [hplugin_load, hplugin_exists, hb, hopen, hinfo, hrole, if_true]
    have hst : hplugin_unload
          { st with plugins := st.plugins ++ [{ (hplugin_create st).1 with dll := some m.dll }] }
          { (hplugin_create st).1 with dll := some m.dll }
        = { st with closed := st.closed ++ [m.dll] } := by
      have h2 : (hplugin_unload
          { st with plugins := st.plugins ++ [{ (hplugin_create st).1 with dll := some m.dll }] }
          { (hplugin_create st).1 with dll := some m.dll }).closed = st.closed ++ [m.dll] := rfl
      have h3 : ∀ a b : PluginState, a.plugins = b.plugins → a.version = b.version →
          a.DataCheck = b.DataCheck → a.datacheck = b.datacheck → a.closed = b.closed →
          a.called = b.called → a = b := by
        intro a b h1 h2 h3 h4 h5 h6
        cases a
        cases b
        simp only at h1 h2 h3 h4 h5 h6
        subst h1 h2 h3 h4 h5 h6
        rfl
      exact h3 _ _ hun rfl rfl rfl h2 rfl
    refine ⟨_, hload, Or.inr hst, ?_, ?_, ?_, ?_, ?_⟩
    · rw [hst]
    · rw [hst]
      rfl
    · rw [hst]
      rfl
    · rw [hst]
      exact hfresh
    · rw [hst]
      exact hidx

theorem load_role_mismatch_witness :
    Registry_loaded ex_env ex_registry1 ∧
    ex_env.plugin_open "plugins/login.so" = some (ex_module 9200 1 "login") ∧
    (1 : Nat) &&& ex_env.SERVER_TYPE = 0 ∧
    ∃ st1, hplugin_load ex_env ex_registry1 "plugins/login.so" = LoadResult.ret none st1 ∧
      (st1 = ex_registry1 ∨
        st1 = { ex_registry1 with closed := ex_registry1.closed ++ [(ex_module 9200 1 "login").dll] }) ∧
      st1.plugins = ex_registry1.plugins ∧
      (hplugin_create st1).1.idx = (hplugin_create ex_registry1).1.idx ∧
      (hplugin_create st1).1.idx = ex_registry1.plugins.length ∧
      (∀ p ∈ st1.plugins, p.idx ≠ (hplugin_create st1).1.idx) ∧
      (∀ (i : Nat) (p : hplugin), st1.plugins[i]? = some p → p.idx = i) :=
  have hr : Registry_loaded ex_env ex_registry1 :=
    Registry_loaded.load ex_registry0 ex_registry1 "plugins/sample.so" (some ex_plugin_sample)
      (Registry_loaded.init ex_registry0 rfl) (by rfl)
  ⟨hr, rfl, by decide,
    load_role_mismatch ex_env ex_registry1 "plugins/login.so" (ex_module 9200 1 "login")
      { type := 1, name := "login", version := "0.1", req_version := some "1.0" }
      hr rfl rfl (by decide)⟩

end HPM
